import Mathlib

/-!
Verification development for the compose-db schema compiler.

The repository has two sibling emitters that consume the same JSON schema
documents:

* src/parser/to-sql.js   renders CREATE TABLE DDL text per database, and
* src/parser/to-lua.js   renders an immutable Lua descriptor of the schema.

This file is a shallow embedding of both emitters.  JavaScript objects are
modelled as insertion-ordered association lists of string keys to JSON
values; JavaScript exceptions are modelled with Except; JavaScript numbers
appearing in the schemas are modelled as integers (the code paths below
only ever compare and print them, and the sources guard the interesting
values with Number.isSafeInteger).  Each definition follows the source
function it is named after, statement by statement.
-/

/-- A code/value pair of an enumerated code column, source to-sql.js:211. -/
structure CodeValue where
  code : Int
  value : String
deriving DecidableEq, Repr

/-- A JSON/JS value as it can appear in a column record of a schema file.
The values array of a code column is kept structured, because both sources
traverse it with forEach.  undefVal models the JS undefined value (present as
an explicit property value after Object.assign with an absent field). -/
inductive JVal where
  | num (n : Int)
  | str (s : String)
  | bool (b : Bool)
  | null
  | undefVal
  | codeVals (vs : List CodeValue)
deriving DecidableEq, Repr

/-- A JS object: insertion-ordered association list, unique keys in any
object that comes from JSON. -/
abbrev JsObj := List (String × JVal)

/-- Property read: first matching key, none models JS undefined. -/
def objGet : JsObj → String → Option JVal
  | [], _ => none
  | (k2, v) :: rest, k => if k2 == k then some v else objGet rest k

/-- Property read that keeps JS undefined explicit (used where the source
mentions the property value itself, e.g. inside an object literal). -/
def objGetOr (o : JsObj) (k : String) : JVal :=
  match objGet o k with
  | some v => v
  | none => .undefVal

/-- Property write: JS assignment keeps the insertion position of an
existing key and appends a new key at the end. -/
def objSet : JsObj → String → JVal → JsObj
  | [], k, v => [(k, v)]
  | (k2, v2) :: rest, k, v =>
    if k2 == k then (k, v) :: rest else (k2, v2) :: objSet rest k v

/-- The JS delete operator: removes the key. -/
def objDelete (o : JsObj) (k : String) : JsObj :=
  o.filter (fun kv => !(kv.1 == k))

/-- Object.assign target source1: folds the entries of the source onto the
target object in order. -/
def objAssignAll (o : JsObj) (entries : JsObj) : JsObj :=
  entries.foldl (fun acc kv => objSet acc kv.1 kv.2) o

/-- JS truthiness of a (possibly absent) property value. -/
def truthy : Option JVal → Bool
  | none => false
  | some (.num n) => !(n == 0)
  | some (.str s) => !(s == "")
  | some (.bool b) => b
  | some .null => false
  | some .undefVal => false
  | some (.codeVals _) => true

/-- JS loose comparison x != undefined: false exactly for undefined and
null.  Both sources use it to test whether an optional field is present. -/
def isDef : Option JVal → Bool
  | none => false
  | some .null => false
  | some .undefVal => false
  | some _ => true

/-- isDef on a value that is known to be present. -/
def isDefV (v : JVal) : Bool := isDef (some v)

/-- Parse an optional-sign decimal string, used to model JS string-to-number
coercion in loose comparisons.  Non-numeric strings are NaN, modelled as
none; coercion corner cases (whitespace, exponents) do not occur in the
schema values this development evaluates. -/
def decStr? (s : String) : Option Int :=
  match s.data with
  | [] => some 0
  | '-' :: rest => if rest ≠ [] && rest.all Char.isDigit
      then some (-(Int.ofNat (String.mk rest).toNat?.iget)) else none
  | l => if l.all Char.isDigit then some (Int.ofNat s.toNat?.iget) else none

/-- JS numeric coercion of a (possibly absent) value; none models NaN. -/
def jsToNum : Option JVal → Option Int
  | none => none
  | some (.num n) => some n
  | some (.bool b) => some (if b then 1 else 0)
  | some .null => some 0
  | some .undefVal => none
  | some (.str s) => decStr? s
  | some (.codeVals _) => none

/-- JS comparison v < m against a number; comparisons with NaN are false. -/
def jsLtNum (v : Option JVal) (m : Int) : Bool :=
  match jsToNum v with
  | some n => decide (n < m)
  | none => false

/-- JS comparison v > m against a number; comparisons with NaN are false. -/
def jsGtNum (v : Option JVal) (m : Int) : Bool :=
  match jsToNum v with
  | some n => decide (m < n)
  | none => false

/-- Number.isSafeInteger on an integer magnitude. -/
def jsSafeIntZ (n : Int) : Bool := n.natAbs ≤ 9007199254740991

/-- Number.isSafeInteger on a (possibly absent) JS value: only number
values qualify. -/
def jsSafeIntOpt : Option JVal → Bool
  | some (.num n) => jsSafeIntZ n
  | _ => false

/-- JS template/string coercion of a value. -/
def jsDisplay : JVal → String
  | .num n => toString n
  | .str s => s
  | .bool b => if b then "true" else "false"
  | .null => "null"
  | .undefVal => "undefined"
  | .codeVals vs => String.intercalate "," (vs.map (fun _ => "[object Object]"))

/-- JS template/string coercion of a possibly absent property. -/
def jsDisplayOpt : Option JVal → String
  | none => "undefined"
  | some v => jsDisplay v

/-- JS loose equality between a property value and an optional string
(undefined on the right models a destructuring miss). -/
def jsLooseEqName (v : Option JVal) (t : Option String) : Bool :=
  match t with
  | some s =>
    match v with
    | some (.str u) => u == s
    | some (.num n) => decStr? s == some n
    | some (.bool b) => decStr? s == some (if b then 1 else 0)
    | _ => false
  | none =>
    match v with
    | none => true
    | some .null => true
    | some .undefVal => true
    | _ => false

/-- The numeric value of a property known to be a number (guarded use). -/
def jsNumOf : Option JVal → Int
  | some (.num n) => n
  | _ => 0

/-- Regex ^[a-z_]+$ of to-sql.js:263 (table names). -/
def isTableName (s : String) : Bool :=
  !(s.data == []) && s.data.all (fun c => (('a' ≤ c && c ≤ 'z') || c == '_'))

/-- Regex ^[a-z][a-zA-Z0-9]+$ of to-sql.js:297 (column names). -/
def isColName (s : String) : Bool :=
  match s.data with
  | [] => false
  | c :: rest =>
    ('a' ≤ c && c ≤ 'z') && !(rest == []) &&
      rest.all (fun d => (('a' ≤ d && d ≤ 'z') || ('A' ≤ d && d ≤ 'Z') || d.isDigit))

/-- Regex ^[A-Z0-9_]+$ of to-sql.js:219 (code value names). -/
def isCodeName (s : String) : Bool :=
  !(s.data == []) && s.data.all (fun c => (('A' ≤ c && c ≤ 'Z') || c.isDigit || c == '_'))

/-- Regex ^0x[0-9a-fA-F]+$ of to-sql.js:168 (binary defaults). -/
def isHexLit (s : String) : Bool :=
  match s.data with
  | '0' :: 'x' :: rest =>
    !(rest == []) && rest.all (fun c => (c.isDigit || ('a' ≤ c && c ≤ 'f') || ('A' ≤ c && c ≤ 'F')))
  | _ => false

/-- Regex ^[0-9]+$ of to-lua.js:47 (numeric object keys). -/
def isDigitStr (s : String) : Bool :=
  !(s.data == []) && s.data.all Char.isDigit

/-- An index declaration, to-sql.js:274. -/
structure Index where
  type : String
  columns : List String
deriving DecidableEq, Repr

/-- A table declaration.  Columns stay dynamic JS objects because both
emitters read and (in to-lua.js) rewrite arbitrary fields of them. -/
structure Table where
  name : String
  type : String
  columns : List JsObj
  indexes : List Index
deriving DecidableEq, Repr

/-- A database declaration. -/
structure Database where
  name : String
  type : String
  tables : List Table
deriving DecidableEq, Repr

/-- The JS exceptions the two emitters can raise.  typeErr, rangeErr,
refErr, structErr and plainErr model thrown TypeError, RangeError,
ReferenceError, SyntaxError and Error values; crashErr models an uncaught
native TypeError such as reading a property of undefined (to-lua.js has
such paths in its FK lookup). -/
inductive JsError where
  | typeErr (msg : String)
  | rangeErr (msg : String)
  | refErr (msg : String)
  | structErr (msg : String)
  | plainErr (msg : String)
  | crashErr (msg : String)
deriving DecidableEq, Repr

/-- Whether an Except result is a success. -/
def exIsOk {α : Type} : Except JsError α → Bool
  | .ok _ => true
  | .error _ => false

/-- INTEGER_SIZES, to-sql.js:12 (a Set, modelled by its element list). -/
def INTEGER_SIZES : List String := ["TINYINT", "SMALLINT", "MEDIUMINT", "INT", "BIGINT"]

/-- INTEGER_MIN, to-sql.js:14. -/
def INTEGER_MIN : String → Int
  | "TINYINT" => -128
  | "SMALLINT" => -32768
  | "MEDIUMINT" => -8388608
  | "INT" => -2147483648
  | "BIGINT" => -99999999999999
  | _ => 0

/-- INTEGER_MAX_UNSIGNED, to-sql.js:22. -/
def INTEGER_MAX_UNSIGNED : String → Int
  | "TINYINT" => 255
  | "SMALLINT" => 65535
  | "MEDIUMINT" => 16777215
  | "INT" => 4294967295
  | "BIGINT" => 99999999999999
  | _ => 0

/-- INTEGER_MAX_SIGNED, to-sql.js:30. -/
def INTEGER_MAX_SIGNED : String → Int
  | "TINYINT" => 127
  | "SMALLINT" => 32767
  | "MEDIUMINT" => 8388607
  | "INT" => 2147483647
  | "BIGINT" => 99999999999999
  | _ => 0

/-- absMin of to-sql.js:45: the lower validation bound for a size and
signedness. -/
def sqlAbsMin (isUnsigned : Bool) (size : String) : Int :=
  if isUnsigned then 0 else INTEGER_MIN size

/-- absMax of to-sql.js:46: the upper validation bound for a size and
signedness. -/
def sqlAbsMax (isUnsigned : Bool) (size : String) : Int :=
  if isUnsigned then INTEGER_MAX_UNSIGNED size else INTEGER_MAX_SIGNED size

/-- processIntegerColumn, to-sql.js:38. -/
def processIntegerColumn (col : JsObj) : Except JsError String :=
  match objGet col "size" with
  | some (.str size) =>
    if !(INTEGER_SIZES.contains size) then
      .error (.typeErr ("Integer column has invalid size \"" ++ size ++ "\""))
    else
      let isUnsigned := truthy (objGet col "unsigned")
      let absMin := sqlAbsMin isUnsigned size
      let absMax := sqlAbsMax isUnsigned size
      let minimum := objGet col "minValue"
      if isDef minimum && jsLtNum minimum absMin then
        .error (.rangeErr ("Integer column has out-of-range minimum value \"" ++ jsDisplayOpt minimum ++ "\""))
      else
        let maximum := objGet col "maxValue"
        if isDef maximum && jsGtNum maximum absMax then
          .error (.rangeErr ("Integer column has out-of-range maximum value \"" ++ jsDisplayOpt maximum ++ "\""))
        else
          let defaultValue := objGet col "defaultValue"
          if isDef defaultValue && !(jsSafeIntOpt defaultValue) then
            .error (.typeErr ("Integer column has non-integer default value \"" ++ jsDisplayOpt defaultValue ++ "\""))
          else if isDef defaultValue && (jsLtNum defaultValue absMin || jsGtNum defaultValue absMax) then
            .error (.rangeErr ("Integer column has out-of-range default value \"" ++ jsDisplayOpt defaultValue ++ "\""))
          else
            let nullable := truthy (objGet col "nullable")
            .ok (size ++ " " ++ (if isUnsigned then "UNSIGNED" else "") ++ " "
              ++ (if nullable then "NULL" else "NOT NULL") ++ " "
              ++ (if isDef defaultValue then "DEFAULT " ++ jsDisplayOpt defaultValue else ""))
  | v =>
    .error (.typeErr ("Integer column has invalid size \"" ++ jsDisplayOpt v ++ "\""))

/-- processSerialColumn, to-sql.js:82. -/
def processSerialColumn (col : JsObj) : Except JsError String :=
  match objGet col "size" with
  | some (.str size) =>
    if !(INTEGER_SIZES.contains size) then
      .error (.typeErr ("Serial column has invalid size \"" ++ size ++ "\""))
    else
      .ok (size ++ " UNSIGNED NOT NULL AUTO_INCREMENT")
  | v =>
    .error (.typeErr ("Serial column has invalid size \"" ++ jsDisplayOpt v ++ "\""))

/-- processTimestampColumn, to-sql.js:93. -/
def processTimestampColumn (col : JsObj) : Except JsError String :=
  let isUnsigned := truthy (objGet col "unsigned")
  let defaultValue := objGet col "defaultValue"
  if isDef defaultValue && !isUnsigned then
    .error (.plainErr "Default values for signed timestamps are not allowed")
  else if isDef defaultValue && !(defaultValue == some (.num 0)) then
    .error (.rangeErr ("Timestamp column has non-zero default value \"" ++ jsDisplayOpt defaultValue ++ "\""))
  else
    .ok ("BIGINT UNSIGNED NOT NULL "
      ++ (if isDef defaultValue then "DEFAULT " ++ jsDisplayOpt defaultValue else ""))

/-- processStringColumn, to-sql.js:111. -/
def processStringColumn (col : JsObj) : Except JsError String :=
  let maximumLength := objGet col "maxLength"
  if !(jsSafeIntOpt maximumLength) then
    .error (.typeErr ("String column has non-integer maximum length \"" ++ jsDisplayOpt maximumLength ++ "\""))
  else
    let minimumLength := objGet col "minLength"
    if isDef minimumLength && !(jsSafeIntOpt minimumLength) then
      .error (.typeErr ("String column has non-integer minimum length \"" ++ jsDisplayOpt minimumLength ++ "\""))
    else if isDef minimumLength && (jsLtNum minimumLength 1 || jsGtNum minimumLength (jsNumOf maximumLength)) then
      .error (.rangeErr "String column has out-of-range minimum length")
    else
      let defaultValue := objGet col "defaultValue"
      if isDef defaultValue
          && !(defaultValue == some (.str "\x27\x27")) && !(defaultValue == some (.str "\"\"")) then
        .error (.plainErr ("String column has non-empty literal string default value \"" ++ jsDisplayOpt defaultValue ++ "\""))
      else
        let nullable := truthy (objGet col "nullable")
        .ok ("VARCHAR(" ++ toString (jsNumOf maximumLength) ++ ") "
          ++ (if nullable then "NULL" else "NOT NULL") ++ " "
          ++ (if isDef defaultValue then "DEFAULT \x27\x27" else ""))

/-- processBinaryColumn, to-sql.js:146. -/
def processBinaryColumn (col : JsObj) : Except JsError String :=
  let maximumSize := objGet col "maxSize"
  if !(jsSafeIntOpt maximumSize) then
    .error (.typeErr ("Binary column has non-integer maximum length \"" ++ jsDisplayOpt maximumSize ++ "\""))
  else
    let minimumSize := objGet col "minSize"
    if isDef minimumSize && !(jsSafeIntOpt minimumSize) then
      .error (.typeErr ("Binary column has non-integer minimum length \"" ++ jsDisplayOpt minimumSize ++ "\""))
    else if isDef minimumSize && (jsLtNum minimumSize 1 || jsGtNum minimumSize (jsNumOf maximumSize)) then
      .error (.rangeErr "Binary column has out-of-range minimum length")
    else
      let minFinal : Int := if isDef minimumSize then jsNumOf minimumSize else 0
      let defaultValue := objGet col "defaultValue"
      let dvRendered : Except JsError (Option String) :=
        if isDef defaultValue then
          match defaultValue with
          | some (.str s) =>
            if isHexLit s then .ok (some s)
            else if s == "\x27\x27" || s == "\"\"" then .ok (some "\x27\x27")
            else .error (.plainErr ("Invalid default value for binary column \"" ++ s ++ "\""))
          | v =>
            .error (.plainErr ("Invalid default value for binary column \"" ++ jsDisplayOpt v ++ "\""))
        else .ok none
      match dvRendered with
      | .error e => .error e
      | .ok dv =>
        let nullable := truthy (objGet col "nullable")
        .ok ((if minFinal == jsNumOf maximumSize then "" else "VAR")
          ++ "BINARY(" ++ toString (jsNumOf maximumSize) ++ ") "
          ++ (if nullable then "NULL" else "NOT NULL") ++ " "
          ++ (match dv with
              | some s => "DEFAULT " ++ s
              | none => ""))

/-- processBooleanColumn, to-sql.js:187. -/
def processBooleanColumn (col : JsObj) : Except JsError String :=
  let defaultValue := objGet col "defaultValue"
  if isDef defaultValue && !(defaultValue == some (.num 0)) && !(defaultValue == some (.num 1)) then
    .error (.typeErr ("Boolean column has invalid default value \"" ++ jsDisplayOpt defaultValue ++ "\""))
  else
    let nullable := truthy (objGet col "nullable")
    .ok ("TINYINT(1) UNSIGNED "
      ++ (if nullable then "NULL" else "NOT NULL") ++ " "
      ++ (if isDef defaultValue then "DEFAULT " ++ jsDisplayOpt defaultValue else ""))

/-- The value scan of processCodeColumn, to-sql.js:211-237: walks the
values list carrying the seen-code set, the seen-name set (the JS Sets are
modelled by lists, membership only) and the running highest code. -/
def codeScan : List CodeValue → List Int → List String → Int →
    Except JsError (List Int × List String × Int)
  | [], codes, names, highest => .ok (codes, names, highest)
  | v :: rest, codes, names, highest =>
    if !(jsSafeIntZ v.code) || decide (v.code < 0) then
      .error (.typeErr ("Code column has invalid value code \"" ++ toString v.code ++ "\""))
    else if !(isCodeName v.value) then
      .error (.plainErr ("Code column has invalid value name \"" ++ v.value ++ "\""))
    else if codes.contains v.code then
      .error (.refErr ("Code column contains duplicate value code \"" ++ toString v.code ++ "\""))
    else if names.contains v.value then
      .error (.refErr ("Code column contains duplicate value name \"" ++ v.value ++ "\""))
    else
      codeScan rest (v.code :: codes) (v.value :: names)
        (if highest < v.code then v.code else highest)

/-- Set.has on the collected code set against a (possibly absent) default
value; only number values can match, to-sql.js:245. -/
def codeSetHas (codes : List Int) : Option JVal → Bool
  | some (.num n) => codes.contains n
  | _ => false

/-- processCodeColumn, to-sql.js:203. -/
def processCodeColumn (col : JsObj) : Except JsError String :=
  match objGet col "values" with
  | some (.codeVals vs) =>
    if vs.length == 0 then
      .error (.plainErr "Code column has no values")
    else
      match codeScan vs [] [] 0 with
      | .error e => .error e
      | .ok (codes, _, highest) =>
        if decide (255 < highest) then
          .error (.rangeErr ("Code column contains too large value code \"" ++ toString highest ++ "\""))
        else
          let defaultValue := objGet col "defaultValue"
          if isDef defaultValue && !(codeSetHas codes defaultValue) then
            .error (.refErr ("Code column has unknown default value \"" ++ jsDisplayOpt defaultValue ++ "\""))
          else
            let nullable := truthy (objGet col "nullable")
            .ok ("TINYINT UNSIGNED "
              ++ (if nullable then "NULL" else "NOT NULL") ++ " "
              ++ (if isDef defaultValue then "DEFAULT " ++ jsDisplayOpt defaultValue else ""))
  | _ =>
    .error (.crashErr "Cannot read property length of undefined")

/-- Whether the first list is a leading segment of the second. -/
def leadsList : List Char → List Char → Bool
  | [], _ => true
  | _ :: _, [] => false
  | a :: as, b :: bs => a == b && leadsList as bs

/-- Index of the first occurrence of pat in l, if any (structural scan,
models JS String.indexOf / first regex match position). -/
def subFindGo (pat : List Char) : List Char → Option Nat
  | [] => if pat.isEmpty then some 0 else none
  | c :: rest =>
    if leadsList pat (c :: rest) then some 0
    else (subFindGo pat rest).map (fun i => i + 1)

/-- JS String.replace with a plain string pattern: replaces the first
occurrence only (used for AUTO_INCREMENT and NOT NULL rewriting in the FK
branch of processTable, to-sql.js:343-359). -/
def replaceFirst (s pat repl : String) : String :=
  match subFindGo pat.data s.data with
  | none => s
  | some i =>
    String.mk (s.data.take i) ++ repl ++ String.mk (s.data.drop (i + pat.data.length))

/-- JS String.replace with the regex DEFAULT dot-star dollar: removes
everything from the first DEFAULT clause to the end of the clause string,
to-sql.js:343. -/
def stripDefaultClause (s : String) : String :=
  match subFindGo "DEFAULT ".data s.data with
  | none => s
  | some i => String.mk (s.data.take i)

/-- JS String.split with a one-character separator: the splitter used on
the dotted FK reference paths in both emitters. -/
def strSplitGo (c : Char) : List Char → List Char → List String
  | [], acc => [String.mk acc.reverse]
  | d :: rest, acc =>
    if d == c then String.mk acc.reverse :: strSplitGo c rest []
    else strSplitGo c rest (d :: acc)

/-- column.split of the dotted FK reference path. -/
def strSplitDot (s : String) : List String := strSplitGo '.' s.data []

/-- The FK reference-path resolution of processTable, to-sql.js:305-339:
pops the column, table and optional database segment off the dotted path
and looks each up, returning the target database, table and column. -/
def sqlResolveFkTarget (parts : List String) (database : Database)
    (databases : List Database) : Except JsError (Database × Table × JsObj) :=
  match parts.getLast? with
  | none => .error (.refErr "No column provided for FK reference column")
  | some targetCol =>
    if targetCol == "" then
      .error (.refErr "No column provided for FK reference column")
    else
      let rest := parts.dropLast
      match rest.getLast? with
      | none => .error (.refErr "No table provided for FK reference column")
      | some targetTable =>
        if targetTable == "" then
          .error (.refErr "No table provided for FK reference column")
        else
          let rest2 := rest.dropLast
          let dbResolved : Except JsError Database :=
            match rest2.getLast? with
            | none => .ok database
            | some dbName =>
              match databases.find? (fun db => db.name == dbName) with
              | none => .error (.refErr "Non-existent database provided for FK reference column")
              | some db => .ok db
          match dbResolved with
          | .error e => .error e
          | .ok targetDatabase =>
            match targetDatabase.tables.find? (fun t => t.name == targetTable) with
            | none => .error (.refErr "Non-existent table provided for FK reference column")
            | some tTable =>
              match tTable.columns.find? (fun c => objGet c "name" == some (.str targetCol)) with
              | none => .error (.refErr "Non-existent column provided for FK reference column")
              | some tCol => .ok (targetDatabase, tTable, tCol)

/-- The FK case of the column switch in processTable, to-sql.js:304-369:
resolves the reference, rejects nullable and non-integer/serial targets,
strips AUTO_INCREMENT and the DEFAULT clause from the rendered target
clause, optionally emits a FOREIGN KEY index clause, and applies the FK
own nullable and defaultValue of the declaration.  Returns the column clause
and the index clauses pushed while processing it. -/
def sqlFkColumn (col : JsObj) (colName : String) (database : Database)
    (databases : List Database) : Except JsError (String × List String) :=
  match objGet col "column" with
  | some (.str path) =>
    match sqlResolveFkTarget (strSplitDot path) database databases with
    | .error e => .error e
    | .ok (targetDatabase, targetTable, targetCol) =>
      if truthy (objGet targetCol "nullable") then
        .error (.typeErr "FK reference column is nullable, not suitable for FK reference")
      else
        let descResolved : Except JsError String :=
          match objGet targetCol "type" with
          | some (.str "integer") =>
            match processIntegerColumn targetCol with
            | .error e => .error e
            | .ok s => .ok (stripDefaultClause (replaceFirst s "AUTO_INCREMENT" ""))
          | some (.str "serial") =>
            match processSerialColumn targetCol with
            | .error e => .error e
            | .ok s => .ok (stripDefaultClause (replaceFirst s "AUTO_INCREMENT" ""))
          | _ => .error (.typeErr "FK reference column has type not suitable as FK reference")
        match descResolved with
        | .error e => .error e
        | .ok desc0 =>
          let ondelete := objGet col "ondelete"
          let fkIdx : List String :=
            if isDef ondelete && !(jsLooseEqName ondelete (some "NO ACTION")) then
              ["FOREIGN KEY (" ++ colName ++ ") REFERENCES "
                ++ (if targetDatabase == database then "" else targetDatabase.name ++ ".")
                ++ targetTable.name ++ " (" ++ jsDisplayOpt (objGet targetCol "name") ++ ") ON DELETE "
                ++ jsDisplayOpt ondelete]
            else []
          let desc1 :=
            if truthy (objGet col "nullable") then replaceFirst desc0 "NOT NULL" "NULL" else desc0
          let defaultValue := objGet col "defaultValue"
          if isDef defaultValue && !(jsSafeIntOpt defaultValue) then
            .error (.typeErr "Invalid FK default value")
          else
            .ok ((if isDef defaultValue then desc1 ++ " DEFAULT " ++ jsDisplayOpt defaultValue else desc1),
              fkIdx)
  | v => .error (.crashErr ("Cannot read property split of " ++ jsDisplayOpt v))

/-- One index clause of processTable, to-sql.js:274-293. -/
def indexClause (idx : Index) : Except JsError String :=
  match idx.type with
  | "primary" => .ok ("PRIMARY KEY (" ++ String.intercalate "," idx.columns ++ ")")
  | "unique" => .ok ("UNIQUE (" ++ String.intercalate "," idx.columns ++ ")")
  | "index" => .ok ("INDEX (" ++ String.intercalate "," idx.columns ++ ")")
  | other => .error (.plainErr ("Unrecognised index type \"" ++ other ++ "\""))

/-- The index forEach of processTable, first error wins. -/
def sqlIdxGo : List Index → Except JsError (List String)
  | [] => .ok []
  | idx :: rest =>
    match indexClause idx with
    | .error e => .error e
    | .ok s =>
      match sqlIdxGo rest with
      | .error e => .error e
      | .ok l => .ok (s :: l)

/-- The column forEach of processTable, to-sql.js:295-404, accumulating
column clauses and index clauses (FK clauses are appended to the latter). -/
def sqlColsGo (tableName : String) (database : Database) (databases : List Database) :
    List JsObj → List String → List String → Except JsError (List String × List String)
  | [], cols, idxes => .ok (cols, idxes)
  | col :: rest, cols, idxes =>
    let colName := jsDisplayOpt (objGet col "name")
    if !(isColName colName) then
      .error (.plainErr ("Invalid table column name \"" ++ colName ++ "\" in table \"" ++ tableName ++ "\""))
    else
      let descResolved : Except JsError (String × List String) :=
        match objGet col "type" with
        | some (.str "FK") => sqlFkColumn col colName database databases
        | some (.str "integer") =>
          match processIntegerColumn col with
          | .error e => .error e
          | .ok s => .ok (s, [])
        | some (.str "serial") =>
          match processSerialColumn col with
          | .error e => .error e
          | .ok s => .ok (s, [])
        | some (.str "timestamp") =>
          match processTimestampColumn col with
          | .error e => .error e
          | .ok s => .ok (s, [])
        | some (.str "string") =>
          match processStringColumn col with
          | .error e => .error e
          | .ok s => .ok (s, [])
        | some (.str "binary") =>
          match processBinaryColumn col with
          | .error e => .error e
          | .ok s => .ok (s, [])
        | some (.str "boolean") =>
          match processBooleanColumn col with
          | .error e => .error e
          | .ok s => .ok (s, [])
        | some (.str "code") =>
          match processCodeColumn col with
          | .error e => .error e
          | .ok s => .ok (s, [])
        | v =>
          .error (.typeErr ("Unknown table column type \"" ++ jsDisplayOpt v
            ++ "\" for column \"" ++ colName ++ "\" in table \"" ++ tableName ++ "\""))
      match descResolved with
      | .error e => .error e
      | .ok (desc, newIdxes) =>
        sqlColsGo tableName database databases rest
          (cols ++ [colName ++ " " ++ desc]) (idxes ++ newIdxes)

/-- processTable, to-sql.js:258-411. -/
def processTable (table : Table) (database : Database) (databases : List Database) :
    Except JsError String :=
  if !(isTableName table.name) then
    .error (.plainErr ("Invalid table name \"" ++ table.name ++ "\""))
  else if !(table.type == "fixed") then
    .error (.typeErr "Non-fixed tables are not supported yet")
  else
    match sqlIdxGo table.indexes with
    | .error e => .error e
    | .ok idxClauses =>
      match sqlColsGo table.name database databases table.columns [] idxClauses with
      | .error e => .error e
      | .ok (cols, idxes) =>
        .ok ("\n        CREATE TABLE " ++ table.name ++ " (\n            "
          ++ String.intercalate ",\n" (cols ++ idxes)
          ++ "\n        );\n    ")

/-- The dbSql header of the top-level forEach, to-sql.js:417-420. -/
def sqlDbHeader (name : String) : String :=
  "\n            CREATE DATABASE " ++ name
    ++ " CHARACTER SET utf8mb4 COLLATE utf8mb4_unicode_ci;\n            USE "
    ++ name ++ ";\n        "

/-- The per-database table loop of to-sql.js:421-423, accumulating the
statement text; the first table failure aborts the database. -/
def sqlTablesGo (db : Database) (databases : List Database) :
    List Table → String → Except JsError String
  | [], acc => .ok acc
  | t :: rest, acc =>
    match processTable t db databases with
    | .error e => .error e
    | .ok s => sqlTablesGo db databases rest (acc ++ s)

/-- The SQL text of one database of an input file, to-sql.js:416-423. -/
def processDatabaseSql (db : Database) (databases : List Database) : Except JsError String :=
  sqlTablesGo db databases db.tables (sqlDbHeader db.name)

/-- Per-table rendering as a sequence (used to state the ordering result):
first error wins, otherwise the per-table SQL strings in declaration
order. -/
def sqlTablesSeq (db : Database) (databases : List Database) :
    List Table → Except JsError (List String)
  | [] => .ok []
  | t :: rest =>
    match processTable t db databases with
    | .error e => .error e
    | .ok s =>
      match sqlTablesSeq db databases rest with
      | .error e => .error e
      | .ok l => .ok (s :: l)

/-- The database forEach of to-sql.js:416-425: each completed database
writes the accumulated text to OUT_DIR/f.sql; an exception aborts the
remaining databases but leaves earlier writes in place.  Returns the list
of performed writes and the aborting error, if any. -/
def sqlEmitGo (fname : String) (databases : List Database) :
    List Database → List (String × String) × Option JsError
  | [] => ([], none)
  | db :: rest =>
    match processDatabaseSql db databases with
    | .error e => ([], some e)
    | .ok s =>
      let r := sqlEmitGo fname databases rest
      ((fname ++ ".sql", s) :: r.1, r.2)

/-- All file writes performed by the SQL emitter for one input file. -/
def sqlEmitWrites (fname : String) (databases : List Database) :
    List (String × String) × Option JsError :=
  sqlEmitGo fname databases databases

/-- coreDatabase, to-lua.js:19: find-first database of type fixed. -/
def luaFindCore (dbs : List Database) : Option Database :=
  dbs.find? (fun db => db.type == "fixed")

/-- instDatabase, to-lua.js:20: find-first database of type instance. -/
def luaFindInst (dbs : List Database) : Option Database :=
  dbs.find? (fun db => db.type == "instance")

/-- The database-count check of to-lua.js:15. -/
def dbCountOk (dbs : List Database) : Bool :=
  !(decide (dbs.length < 1) || decide (2 < dbs.length))

/-- The string escaping of objectToLua, to-lua.js:59: escape backslashes,
then double quotes (String.replace with a global regex replaces every
occurrence). -/
def luaEscape (s : String) : String :=
  (s.replace "\\" "\\\\").replace "\"" "\\\""

/-- The key rendering of objectToLua, to-lua.js:46-54: an all-digit key is
parsed and rendered in square brackets. -/
def luaKeyRender (k : String) : String :=
  if isDigitStr k then "[" ++ toString (k.toNat?.iget) ++ "]" else k

/-- The value rendering of objectToLua, to-lua.js:56-71.  A string is
quoted and escaped; an object value (a nested values array, or null whose
nil branch is commented out in the source) raises the nested-object
SyntaxError; undefined falls through the typeof switch and is printed. -/
def luaValRender : JVal → Except JsError String
  | .str s => .ok ("\"" ++ luaEscape s ++ "\"")
  | .num n => .ok (toString n)
  | .bool b => .ok (if b then "true" else "false")
  | .undefVal => .ok "undefined"
  | .null => .error (.structErr "Detected nested object within column object")
  | .codeVals _ => .error (.structErr "Detected nested object within column object")

/-- The Object.keys fold of objectToLua, to-lua.js:45-73. -/
def objectToLuaGo : JsObj → Except JsError String
  | [] => .ok ""
  | (k, v) :: rest =>
    match luaValRender v with
    | .error e => .error e
    | .ok rv =>
      match objectToLuaGo rest with
      | .error e => .error e
      | .ok rrest => .ok (luaKeyRender k ++ " = " ++ rv ++ "," ++ rrest)

/-- objectToLua, to-lua.js:42-78. -/
def objectToLua (obj : JsObj) : Except JsError String :=
  match objectToLuaGo obj with
  | .error e => .error e
  | .ok body => .ok ("\x7b" ++ body ++ "\x7d")

/-- The FK lookup of writeTable, to-lua.js:89-105, after the dotted path
has been split: selects the database (an explicit name is compared against
the name of the core database only, anything else falls back to the instance
database; a missing core database, a missing selected database or a
missing table crash with a native TypeError), finds the column, and
returns it.  pathStr is column.column, used in the error message. -/
def luaFkLookup (core inst : Option Database) (side : String)
    (parts : List String) (pathStr : String) : Except JsError JsObj :=
  let fkDatabase : Option String :=
    if parts.length == 3 then some (parts.getD 0 "") else none
  let fkTable : String :=
    if parts.length == 3 then parts.getD 1 "" else parts.getD 0 ""
  let fkColName : Option String :=
    if parts.length == 3 then some (parts.getD 2 "") else parts[1]?
  let dbResolved : Except JsError (Option Database) :=
    match fkDatabase with
    | none => .ok (if side == "core" then core else inst)
    | some dn =>
      match core with
      | none => .error (.crashErr "Cannot read property name of undefined")
      | some c => .ok (if dn == c.name then some c else inst)
  match dbResolved with
  | .error e => .error e
  | .ok none => .error (.crashErr "Cannot read property tables of undefined")
  | .ok (some db) =>
    match db.tables.find? (fun t => t.name == fkTable) with
    | none => .error (.crashErr "Cannot read property columns of undefined")
    | some tbl =>
      match tbl.columns.find? (fun c => jsLooseEqName (objGet c "name") fkColName) with
      | none => .error (.refErr (pathStr ++ " column for FK not found"))
      | some fkCol => .ok fkCol

/-- The FK rewriting of writeTable, to-lua.js:88-112: looks the target up
and replaces the column by a copy of the target carrying the own name and nullable of the declaration, deleting any values field.  There is no nullability or
target-type check on this path. -/
def luaResolveFk (core inst : Option Database) (side : String) (col : JsObj) :
    Except JsError JsObj :=
  match objGet col "column" with
  | some (.str pathStr) =>
    match luaFkLookup core inst side (strSplitDot pathStr) pathStr with
    | .error e => .error e
    | .ok fkCol =>
      .ok (objDelete
        (objSet (objSet (objAssignAll [] fkCol) "name" (objGetOr col "name"))
          "nullable" (objGetOr col "nullable"))
        "values")
  | v => .error (.crashErr ("Cannot read property split of " ++ jsDisplayOpt v))

/-- The minValue defaulting of writeTable, to-lua.js:115-147. -/
def luaIntMin (col : JsObj) : Except JsError JsObj :=
  if isDef (objGet col "minValue") then .ok col
  else if truthy (objGet col "autoIncrement") then .ok (objSet col "minValue" (.num 1))
  else if truthy (objGet col "unsigned") then .ok (objSet col "minValue" (.num 0))
  else
    match objGet col "size" with
    | some (.str "TINYINT") => .ok (objSet col "minValue" (.num (-128)))
    | some (.str "SMALLINT") => .ok (objSet col "minValue" (.num (-32768)))
    | some (.str "MEDIUMINT") => .ok (objSet col "minValue" (.num (-8388608)))
    | some (.str "INT") => .ok (objSet col "minValue" (.num (-2147483648)))
    | some (.str "BIGINT") => .ok (objSet col "minValue" (.num (-99999999999999)))
    | v => .error (.structErr ("Unrecognised integer type: " ++ jsDisplayOpt v))

/-- The maxValue defaulting of writeTable, to-lua.js:148-175. -/
def luaIntMax (col : JsObj) : Except JsError JsObj :=
  if isDef (objGet col "maxValue") then .ok col
  else
    let u := truthy (objGet col "unsigned")
    match objGet col "size" with
    | some (.str "TINYINT") => .ok (objSet col "maxValue" (.num (if u then 255 else 127)))
    | some (.str "SMALLINT") => .ok (objSet col "maxValue" (.num (if u then 65535 else 32767)))
    | some (.str "MEDIUMINT") => .ok (objSet col "maxValue" (.num (if u then 16777215 else 8388607)))
    | some (.str "INT") => .ok (objSet col "maxValue" (.num (if u then 4294967295 else 2147483647)))
    | some (.str "BIGINT") => .ok (objSet col "maxValue" (.num (if u then 99999999999999 else 99999999999999)))
    | v => .error (.structErr ("Unrecognised integer type: " ++ jsDisplayOpt v))

/-- The serial branch of writeTable, to-lua.js:176-204: minValue is fixed
at 1, maxValue is the unsigned ceiling for the size. -/
def luaSerialBounds (col : JsObj) : Except JsError JsObj :=
  let col1 := objSet col "minValue" (.num 1)
  match objGet col1 "size" with
  | some (.str "TINYINT") => .ok (objSet col1 "maxValue" (.num 255))
  | some (.str "SMALLINT") => .ok (objSet col1 "maxValue" (.num 65535))
  | some (.str "MEDIUMINT") => .ok (objSet col1 "maxValue" (.num 16777215))
  | some (.str "INT") => .ok (objSet col1 "maxValue" (.num 4294967295))
  | some (.str "BIGINT") => .ok (objSet col1 "maxValue" (.num 99999999999999))
  | v => .error (.structErr ("Unrecognised serial size: " ++ jsDisplayOpt v))

/-- The bound attachment of writeTable, to-lua.js:113-204: the column type
is rechecked because an FK may have been rewritten.  No range validation
happens on this path. -/
def luaAttachBounds (col : JsObj) : Except JsError JsObj :=
  if jsLooseEqName (objGet col "type") (some "integer") then
    match luaIntMin col with
    | .error e => .error e
    | .ok col1 => luaIntMax col1
  else if jsLooseEqName (objGet col "type") (some "serial") then
    luaSerialBounds col
  else .ok col

/-- to-lua.js:205-206: delete comments, tag the object type. -/
def luaFinalize (col : JsObj) : JsObj :=
  objSet (objDelete col "comments") "_objectType" (.str "column")

/-- The per-value forEach of the code mapping emission, to-lua.js:210-215. -/
def luaCodeLines (side tname cname : String) : List CodeValue → String
  | [] => ""
  | v :: rest =>
    "\n                        Schema." ++ side ++ "." ++ tname ++ "." ++ cname
      ++ "." ++ v.value ++ " = " ++ toString v.code
      ++ "\n                        Schema." ++ side ++ "." ++ tname ++ "." ++ cname
      ++ "[" ++ toString v.code ++ "] = \"" ++ v.value ++ "\"\n                    "
      ++ luaCodeLines side tname cname rest

/-- The code-column emission of writeTable, to-lua.js:208-221: a code
column with a (truthy) values array gets name-to-code and code-to-name
mapping lines plus a valid-code set, and the values field is deleted from
the column before the object literal is rendered. -/
def luaCodeSnippet (side tname cname : String) (col : JsObj) :
    Except JsError (String × JsObj) :=
  if jsLooseEqName (objGet col "type") (some "code") && truthy (objGet col "values") then
    match objGet col "values" with
    | some (.codeVals vs) =>
      .ok (luaCodeLines side tname cname vs
        ++ "\n                    Schema." ++ side ++ "." ++ tname ++ "." ++ cname
        ++ ".codes = Set:new(\x7b"
        ++ String.intercalate "," (vs.map (fun v => toString v.code))
        ++ "\x7d)\n                ",
        objDelete col "values")
    | _ => .error (.crashErr "column.values.forEach is not a function")
  else .ok ("", col)

/-- One column of writeTable, to-lua.js:86-228: FK rewriting, bound
attachment, finalization, code mapping emission and the column snippet.
Returns the final column record, the emitted Lua text for the column, and
whether the column was an FK declaration (in which case the source
rebinds the loop variable to a fresh copy and the schema model is NOT
mutated; otherwise the final record replaces the column in the model). -/
def luaProcessColumn (core inst : Option Database) (side tname : String)
    (col0 : JsObj) : Except JsError (JsObj × String × Bool) :=
  let isFK := jsLooseEqName (objGet col0 "type") (some "FK")
  let resolved : Except JsError JsObj :=
    if isFK then luaResolveFk core inst side col0 else .ok col0
  match resolved with
  | .error e => .error e
  | .ok col1 =>
    match luaAttachBounds col1 with
    | .error e => .error e
    | .ok col2 =>
      let col3 := luaFinalize col2
      let cname := jsDisplayOpt (objGet col3 "name")
      match luaCodeSnippet side tname cname col3 with
      | .error e => .error e
      | .ok (codeLua, col4) =>
        match objectToLua col4 with
        | .error e => .error e
        | .ok objLua =>
          .ok (col4,
            "\n                Schema." ++ side ++ "." ++ tname ++ "." ++ cname
              ++ " = " ++ objLua
              ++ "\n                Schema." ++ side ++ "." ++ tname ++ "." ++ cname
              ++ "._parentTable = Schema." ++ side ++ "." ++ tname
              ++ "\n                " ++ codeLua
              ++ "\n                setmetatable(Schema." ++ side ++ "." ++ tname ++ "." ++ cname
              ++ ", FrozenTableMetatable)\n            ",
            isFK)

/-- The evolving state of the descriptor emission: the two (mutable)
database models and the accumulated Lua text. -/
structure LuaSt where
  core : Option Database
  inst : Option Database
  out : String
deriving Repr

/-- Replace the column at table index ti, column index ci of a database
model (the in-place mutation of a non-FK column record). -/
def dbUpdateCol (db : Database) (ti ci : Nat) (c : JsObj) : Database :=
  match db.tables[ti]? with
  | none => db
  | some t => { db with tables := db.tables.set ti { t with columns := t.columns.set ci c } }

/-- The database model of the side being written. -/
def luaStGetDb (st : LuaSt) (side : String) : Option Database :=
  if side == "core" then st.core else st.inst

/-- Write a processed column record back into the model. -/
def luaStSetCol (st : LuaSt) (side : String) (ti ci : Nat) (c : JsObj) : LuaSt :=
  if side == "core" then { st with core := st.core.map (fun db => dbUpdateCol db ti ci c) }
  else { st with inst := st.inst.map (fun db => dbUpdateCol db ti ci c) }

/-- The column forEach of writeTable, to-lua.js:86-229, threading the
mutated model: each column is read from the current model, processed, and
(for non-FK columns) written back before the next column runs. -/
def luaColsGo (side : String) (ti : Nat) (tname : String) :
    Nat → Nat → LuaSt → Except JsError LuaSt
  | 0, _, st => .ok st
  | k + 1, ci, st =>
    match (luaStGetDb st side).bind (fun db => db.tables[ti]?.bind (fun t => t.columns[ci]?)) with
    | none => .ok st
    | some col0 =>
      match luaProcessColumn st.core st.inst side tname col0 with
      | .error e => .error e
      | .ok (colF, snippet, isFK) =>
        let st1 := if isFK then st else luaStSetCol st side ti ci colF
        luaColsGo side ti tname k (ci + 1) { st1 with out := st1.out ++ snippet }

/-- The table header text of writeTable, to-lua.js:81-85. -/
def luaTableHeader (side tname : String) : String :=
  "\n            Schema." ++ side ++ "." ++ tname ++ " = \x7b\x7d"
    ++ "\n            Schema." ++ side ++ "." ++ tname ++ "._objectType = \"table\""
    ++ "\n            Schema." ++ side ++ "." ++ tname ++ "._objectName = \"" ++ tname ++ "\"\n        "

/-- The table trailer text of writeTable, to-lua.js:230-232. -/
def luaTableTrailer (side tname : String) : String :=
  "\n            setmetatable(Schema." ++ side ++ "." ++ tname ++ ", FrozenTableMetatable)\n        "

/-- writeTable, to-lua.js:80-233, for the table at index ti of the given
side: table header, the column loop, and the table setmetatable line. -/
def luaWriteTable (side : String) (ti : Nat) (st : LuaSt) : Except JsError LuaSt :=
  match (luaStGetDb st side).bind (fun db => db.tables[ti]?) with
  | none => .ok st
  | some t =>
    match luaColsGo side ti t.name t.columns.length 0
        { st with out := st.out ++ luaTableHeader side t.name } with
    | .error e => .error e
    | .ok st2 =>
      .ok { st2 with out := st2.out ++ luaTableTrailer side t.name }

/-- The table forEach over one side, to-lua.js:236-238 and 245-247. -/
def luaTablesGo (side : String) : Nat → Nat → LuaSt → Except JsError LuaSt
  | 0, _, st => .ok st
  | k + 1, ti, st =>
    match luaWriteTable side ti st with
    | .error e => .error e
    | .ok st2 => luaTablesGo side k (ti + 1) st2

/-- The fixed leading Lua text, to-lua.js:22-27. -/
def luaHeader0 : String :=
  "\n        local FrozenTableMetatable = require(\x27Base.Lua.FrozenTableMetatable\x27)"
    ++ "\n        local Set = require(\x27Base.DataStructure.Set\x27)"
    ++ "\n\n        local Schema = \x7b\x7d\n    "

/-- The core namespace header, to-lua.js:28-34 (only the core database
gets an _objectName). -/
def luaCoreHeader (name : String) : String :=
  "\n            Schema.core = \x7b\x7d"
    ++ "\n            Schema.core._objectType = \"database\""
    ++ "\n            Schema.core._objectName = \"" ++ name ++ "\"\n        "

/-- The instance namespace header, to-lua.js:35-40. -/
def luaInstHeader : String :=
  "\n            Schema.inst = \x7b\x7d"
    ++ "\n            Schema.inst._objectType = \"database\"\n        "

/-- The core side of the emission, to-lua.js:235-243. -/
def luaCoreSide (st : LuaSt) : Except JsError LuaSt :=
  match st.core with
  | none => .ok st
  | some c =>
    match luaTablesGo "core" c.tables.length 0 st with
    | .error e => .error e
    | .ok st2 =>
      .ok { st2 with out := st2.out ++ "\n            setmetatable(Schema.core, FrozenTableMetatable)\n        " }

/-- The instance side of the emission, to-lua.js:244-252. -/
def luaInstSide (st : LuaSt) : Except JsError LuaSt :=
  match st.inst with
  | none => .ok st
  | some i =>
    match luaTablesGo "inst" i.tables.length 0 st with
    | .error e => .error e
    | .ok st2 =>
      .ok { st2 with out := st2.out ++ "\n            setmetatable(Schema.inst, FrozenTableMetatable)\n        " }

/-- The descriptor emission for one input file, to-lua.js:12-262, up to
the (external, deterministic) luamin.minify call: database-count check,
find-first core/instance lookup, headers, both table loops, trailer. -/
def luaEmitFile (databases : List Database) : Except JsError String :=
  if !(dbCountOk databases) then
    .error (.structErr "Invalid amount of databases")
  else
    let core := luaFindCore databases
    let inst := luaFindInst databases
    let s0 := luaHeader0
      ++ (match core with | some c => luaCoreHeader c.name | none => "")
      ++ (match inst with | some _ => luaInstHeader | none => "")
    match luaCoreSide { core := core, inst := inst, out := s0 } with
    | .error e => .error e
    | .ok st1 =>
      match luaInstSide st1 with
      | .error e => .error e
      | .ok st2 =>
        .ok (st2.out ++ "\n        setmetatable(Schema, FrozenTableMetatable)\n\n        return Schema\n    ")

/-! ### Helper constructions and lemmas -/

/-- The bound pair attached by the descriptor emitter, if emission of the
column succeeded. -/
def luaBoundsOf (r : Except JsError JsObj) : Option (Option JVal × Option JVal) :=
  match r with
  | .ok c => some (objGet c "minValue", objGet c "maxValue")
  | .error _ => none

/-- A plain integer column record: valid name, given size, signedness and
nullability, optional autoIncrement flag, optional explicit bounds,
optional default (optional fields at the tail so lookups on the fixed
fields reduce definitionally). -/
def mkIntCol (sz : String) (u ai nb : Bool) (mn mx dv : Option Int) : JsObj :=
  [("name", .str "aa"), ("type", .str "integer"), ("size", .str sz),
   ("unsigned", .bool u), ("autoIncrement", .bool ai), ("nullable", .bool nb)]
  ++ (match mn with | some n => [("minValue", .num n)] | none => [])
  ++ (match mx with | some n => [("maxValue", .num n)] | none => [])
  ++ (match dv with | some n => [("defaultValue", .num n)] | none => [])

/-- A timestamp column record. -/
def mkTsCol (u : Bool) (dv : Option JVal) : JsObj :=
  [("name", .str "ts"), ("type", .str "timestamp"), ("unsigned", .bool u),
   ("nullable", .bool false)]
  ++ (match dv with | some v => [("defaultValue", v)] | none => [])

/-- A code column record. -/
def mkCodeCol (vs : List CodeValue) (nb : Bool) (dv : Option JVal) : JsObj :=
  [("name", .str "cc"), ("type", .str "code"), ("nullable", .bool nb),
   ("values", .codeVals vs)]
  ++ (match dv with | some v => [("defaultValue", v)] | none => [])

/-- C1 counterexample column: TINYINT with explicit minValue -1000,
below the absolute signed minimum -128. -/
def c1Col : JsObj :=
  [("name", .str "aa"), ("type", .str "integer"), ("size", .str "TINYINT"),
   ("nullable", .bool false), ("minValue", .num (-1000))]

/-- C1 counterexample database. -/
def c1Db : Database :=
  ⟨"maindb", "fixed", [⟨"t", "fixed", [c1Col], []⟩]⟩

/-- C3 counterexample target column: a nullable unsigned INT. -/
def c3Target : JsObj :=
  [("name", .str "uid"), ("type", .str "integer"), ("size", .str "INT"),
   ("unsigned", .bool true), ("nullable", .bool true)]

/-- C3 counterexample FK declaration referencing the nullable column. -/
def c3Fk : JsObj :=
  [("name", .str "ref"), ("type", .str "FK"), ("column", .str "u.uid"),
   ("nullable", .bool false)]

/-- The table holding the C3 target column. -/
def c3UTable : Table := ⟨"u", "fixed", [c3Target], []⟩

/-- The table holding the C3 FK column. -/
def c3FkTable : Table := ⟨"t", "fixed", [c3Fk], []⟩

/-- C3 counterexample database. -/
def c3Db : Database := ⟨"d", "fixed", [c3UTable, c3FkTable]⟩

/-- An instance database used to exercise the descriptor FK lookup
fallback. -/
def c3InstDb : Database := ⟨"i", "instance", []⟩

/-- C4 family: an integer FK target carrying its own defaultValue 5. -/
def c4SqlTarget (sz : String) (u : Bool) : JsObj :=
  [("name", .str "uid"), ("type", .str "integer"), ("size", .str sz),
   ("unsigned", .bool u), ("nullable", .bool false), ("defaultValue", .num 5)]

/-- C4 family: a serial FK target. -/
def c4SerialTarget (sz : String) : JsObj :=
  [("name", .str "uid"), ("type", .str "serial"), ("size", .str sz),
   ("nullable", .bool false)]

/-- C4 family: the FK declaration with its own defaultValue 7. -/
def c4SqlFk (fkNull : Bool) : JsObj :=
  [("name", .str "ref"), ("type", .str "FK"), ("column", .str "u.uid"),
   ("nullable", .bool fkNull), ("defaultValue", .num 7)]

/-- C4 family: database with the integer target and the FK table. -/
def c4SqlDb (sz : String) (u : Bool) (fkNull : Bool) : Database :=
  ⟨"d", "fixed", [⟨"u", "fixed", [c4SqlTarget sz u], []⟩,
                  ⟨"t", "fixed", [c4SqlFk fkNull], []⟩]⟩

/-- C4 family: database with the serial target and the FK table. -/
def c4SerialDb (sz : String) (fkNull : Bool) : Database :=
  ⟨"d", "fixed", [⟨"u", "fixed", [c4SerialTarget sz], []⟩,
                  ⟨"t", "fixed", [c4SqlFk fkNull], []⟩]⟩

/-- C4 counterexample: a code column as FK target. -/
def c4CodeTarget : JsObj :=
  [("name", .str "st"), ("type", .str "code"), ("nullable", .bool false),
   ("values", .codeVals [⟨0, "A"⟩])]

/-- C4 counterexample: FK declaration referencing the code column. -/
def c4CodeFk : JsObj :=
  [("name", .str "ref"), ("type", .str "FK"), ("column", .str "u.st"),
   ("nullable", .bool false)]

/-- C4 counterexample database for the code-target case. -/
def c4CodeDb : Database :=
  ⟨"d", "fixed", [⟨"u", "fixed", [c4CodeTarget], []⟩,
                  ⟨"t", "fixed", [c4CodeFk], []⟩]⟩

/-- Concatenation of a list of strings in order. -/
def strConcat : List String → String
  | [] => ""
  | x :: rest => x ++ strConcat rest

/-- The running-highest fold performed by the value scan of
processCodeColumn. -/
def hiFold : List CodeValue → Int → Int
  | [], h => h
  | v :: rest, h => hiFold rest (if h < v.code then v.code else h)

/-- An individual code value passing the per-entry checks of the scan. -/
def codeEntryOk (v : CodeValue) : Bool :=
  jsSafeIntZ v.code && !(decide (v.code < 0)) && isCodeName v.value

theorem objGet_objSet_self (o : JsObj) (k : String) (v : JVal) :
    objGet (objSet o k v) k = some v := by
  induction o with
  | nil => simp [objSet, objGet]
  | cons kv rest ih =>
    obtain ⟨k1, v1⟩ := kv
    by_cases h : k1 = k
    · simp [objSet, objGet, h]
    · simp [objSet, objGet, h, ih]

theorem objGet_objSet_ne (o : JsObj) (k k2 : String) (v : JVal) (h : k2 ≠ k) :
    objGet (objSet o k v) k2 = objGet o k2 := by
  induction o with
  | nil => simp [objSet, objGet, Ne.symm h]
  | cons kv rest ih =>
    obtain ⟨k1, v1⟩ := kv
    by_cases h2 : k1 = k
    · subst h2
      simp [objSet, objGet, Ne.symm h]
    · by_cases h3 : k1 = k2
      · subst h3
        simp [objSet, objGet, h2]
      · simp [objSet, objGet, h2, h3, ih]

theorem objGet_objDelete_self (o : JsObj) (k : String) :
    objGet (objDelete o k) k = none := by
  induction o with
  | nil => simp [objDelete, objGet]
  | cons kv rest ih =>
    obtain ⟨k1, v1⟩ := kv
    simp only [objDelete, List.filter_cons] at ih ⊢
    by_cases h : k1 = k
    · simpa [h] using ih
    · simpa [h, objGet] using ih

theorem objGet_objDelete_ne (o : JsObj) (k k2 : String) (h : k2 ≠ k) :
    objGet (objDelete o k) k2 = objGet o k2 := by
  induction o with
  | nil => simp [objDelete, objGet]
  | cons kv rest ih =>
    obtain ⟨k1, v1⟩ := kv
    simp only [objDelete, List.filter_cons] at ih ⊢
    by_cases h2 : k1 = k
    · subst h2
      simpa [Ne.symm h, objGet] using ih
    · by_cases h3 : k1 = k2
      · subst h3
        simp [h2, objGet]
      · simpa [h2, h3, objGet] using ih

theorem objSet_of_not_mem (o : JsObj) (k : String) (v : JVal)
    (h : ∀ kv ∈ o, kv.1 ≠ k) : objSet o k v = o ++ [(k, v)] := by
  induction o with
  | nil => simp [objSet]
  | cons kv rest ih =>
    obtain ⟨k1, v1⟩ := kv
    have h1 : k1 ≠ k := h (k1, v1) (by simp)
    simp only [objSet, beq_iff_eq, h1, if_false, List.cons_append]
    rw [ih (fun kv2 hm => h kv2 (by simp [hm]))]

theorem objAssignAll_acc (entries : JsObj) :
    ∀ acc : JsObj, (entries.map Prod.fst).Nodup →
    (∀ p ∈ acc, ∀ q ∈ entries, p.1 ≠ q.1) →
    objAssignAll acc entries = acc ++ entries := by
  induction entries with
  | nil => intro acc _ _; simp [objAssignAll]
  | cons hd rest ih =>
    intro acc hnd hdisj
    have hset : objSet acc hd.1 hd.2 = acc ++ [hd] := by
      rw [objSet_of_not_mem]
      · intro p hm
        exact hdisj p hm hd (by simp)
    have hnd2 : (rest.map Prod.fst).Nodup := (List.nodup_cons.mp (by simpa using hnd)).2
    have hhd : hd.1 ∉ rest.map Prod.fst := (List.nodup_cons.mp (by simpa using hnd)).1
    have hrest : objAssignAll (acc ++ [hd]) rest = (acc ++ [hd]) ++ rest := by
      apply ih _ hnd2
      intro p hm q hq
      rcases List.mem_append.mp hm with hm2 | hm2
      · exact hdisj p hm2 q (by simp [hq])
      · have hp : p = hd := by simpa using hm2
        subst hp
        intro hEq
        exact hhd (by rw [hEq]; exact List.mem_map_of_mem Prod.fst hq)
    calc objAssignAll acc (hd :: rest)
        = objAssignAll (objSet acc hd.1 hd.2) rest := rfl
      _ = objAssignAll (acc ++ [hd]) rest := by rw [hset]
      _ = (acc ++ [hd]) ++ rest := hrest
      _ = acc ++ (hd :: rest) := by simp

theorem objAssignAll_nil (entries : JsObj) (h : (entries.map Prod.fst).Nodup) :
    objAssignAll [] entries = entries := by
  simpa using objAssignAll_acc entries [] h (by simp)

theorem strAppendNil (s : String) : s ++ "" = s := by
  cases s
  show String.mk _ = String.mk _
  simp [String.append]

theorem strAppendAssoc (a b c : String) : a ++ b ++ c = a ++ (b ++ c) := by
  cases a
  cases b
  cases c
  show String.mk _ = String.mk _
  simp [String.append]

theorem sqlTablesGo_not_ok_of_mem (db : Database) (databases : List Database)
    (t : Table) (e : JsError) (ht : processTable t db databases = .error e) :
    ∀ ts : List Table, t ∈ ts → ∀ acc s, sqlTablesGo db databases ts acc ≠ .ok s := by
  intro ts
  induction ts with
  | nil => intro hm; cases hm
  | cons hd rest ih =>
    intro hm acc s
    rcases List.mem_cons.mp hm with hEq | hm2
    · subst hEq
      simp [sqlTablesGo, ht]
    · cases hcase : processTable hd db databases with
      | error e2 => simp [sqlTablesGo, hcase]
      | ok s2 =>
        simp only [sqlTablesGo, hcase]
        exact ih hm2 (acc ++ s2) s

theorem luaStSetCol_out (st : LuaSt) (side : String) (ti ci : Nat) (c : JsObj) :
    (luaStSetCol st side ti ci c).out = st.out := by
  simp only [luaStSetCol]
  split <;> rfl

theorem sqlTablesGo_eq_seq (db : Database) (databases : List Database) :
    ∀ (ts : List Table) (acc : String),
    sqlTablesGo db databases ts acc =
      (match sqlTablesSeq db databases ts with
       | .error e => .error e
       | .ok l => .ok (acc ++ strConcat l)) := by
  intro ts
  induction ts with
  | nil => intro acc; simp [sqlTablesGo, sqlTablesSeq, strConcat, strAppendNil]
  | cons hd rest ih =>
    intro acc
    cases hcase : processTable hd db databases with
    | error e => simp [sqlTablesGo, sqlTablesSeq, hcase]
    | ok s =>
      simp only [sqlTablesGo, sqlTablesSeq, hcase]
      rw [ih]
      cases sqlTablesSeq db databases rest with
      | error e => simp
      | ok l =>
        simp only
        rw [show strConcat (s :: l) = s ++ strConcat l from rfl, strAppendAssoc]

theorem luaColsGo_out_append (side : String) (ti : Nat) (tname : String) :
    ∀ (k ci : Nat) (st st2 : LuaSt),
    luaColsGo side ti tname k ci st = .ok st2 → ∃ s, st2.out = st.out ++ s := by
  intro k
  induction k with
  | zero =>
    intro ci st st2 h
    have hEq : st = st2 := by simpa [luaColsGo] using h
    exact ⟨"", by rw [← hEq, strAppendNil]⟩
  | succ n ih =>
    intro ci st st2 h
    simp only [luaColsGo] at h
    split at h
    · cases h
      exact ⟨"", (strAppendNil _).symm⟩
    · split at h
      · cases h
      · rename_i col0 hcol r colF snippet isFK heq2
        rcases ih (ci + 1) _ st2 h with ⟨s2, hs2⟩
        refine ⟨snippet ++ s2, ?_⟩
        rw [hs2]
        have hout : (if isFK = true then st else luaStSetCol st side ti ci colF).out = st.out := by
          cases isFK
          · simp [luaStSetCol_out]
          · simp
        simp only [hout]
        rw [strAppendAssoc]

theorem luaWriteTable_out_append (side : String) (ti : Nat) (st st2 : LuaSt)
    (h : luaWriteTable side ti st = .ok st2) : ∃ s, st2.out = st.out ++ s := by
  simp only [luaWriteTable] at h
  split at h
  · cases h
    exact ⟨"", (strAppendNil _).symm⟩
  · rename_i t htab
    split at h
    · cases h
    · rename_i st3 hcols
      cases h
      rcases luaColsGo_out_append side ti t.name t.columns.length 0 _ st3 hcols with ⟨s3, hs3⟩
      refine ⟨luaTableHeader side t.name ++ (s3 ++ luaTableTrailer side t.name), ?_⟩
      show st3.out ++ luaTableTrailer side t.name = _
      rw [hs3]
      show ((st.out ++ luaTableHeader side t.name) ++ s3) ++ luaTableTrailer side t.name = _
      rw [strAppendAssoc, strAppendAssoc]

theorem hiFold_init_le (vs : List CodeValue) : ∀ h : Int, h ≤ hiFold vs h := by
  induction vs with
  | nil => intro h; simp [hiFold]
  | cons v rest ih =>
    intro h
    refine le_trans ?_ (ih (if h < v.code then v.code else h))
    split <;> omega

theorem hiFold_le (vs : List CodeValue) (b : Int) (hb : ∀ v ∈ vs, v.code ≤ b) :
    ∀ h : Int, h ≤ b → hiFold vs h ≤ b := by
  induction vs with
  | nil => intro h hh; simpa [hiFold] using hh
  | cons v rest ih =>
    intro h hh
    have hv : v.code ≤ b := hb v (by simp)
    refine ih (fun w hw => hb w (by simp [hw])) _ ?_
    split <;> omega

theorem hiFold_mem_le (vs : List CodeValue) (v : CodeValue) (hv : v ∈ vs) :
    ∀ h : Int, v.code ≤ hiFold vs h := by
  induction vs with
  | nil => cases hv
  | cons w rest ih =>
    intro h
    rcases List.mem_cons.mp hv with hEq | hm
    · subst hEq
      refine le_trans ?_ (hiFold_init_le rest (if h < v.code then v.code else h))
      split <;> omega
    · exact ih hm _

theorem codeScan_ok (vs : List CodeValue) :
    ∀ (codes : List Int) (names : List String) (h : Int),
    (∀ v ∈ vs, codeEntryOk v = true) →
    ((vs.map CodeValue.code) ++ codes).Nodup →
    ((vs.map CodeValue.value) ++ names).Nodup →
    ∃ cs ns, codeScan vs codes names h = .ok (cs, ns, hiFold vs h) ∧
      ∀ c : Int, cs.contains c = ((vs.map CodeValue.code).contains c || codes.contains c) := by
  induction vs with
  | nil =>
    intro codes names h _ _ _
    exact ⟨codes, names, rfl, fun c => by simp⟩
  | cons v rest ih =>
    intro codes names h hok hc hn
    have hvok := hok v (by simp)
    have h1 : jsSafeIntZ v.code = true := by
      simp [codeEntryOk] at hvok; exact hvok.1.1
    have h2 : ¬(v.code < 0) := by
      simp [codeEntryOk] at hvok; omega
    have h3 : isCodeName v.value = true := by
      simp [codeEntryOk] at hvok; exact hvok.2
    have hcCons : (v.code :: ((rest.map CodeValue.code) ++ codes)).Nodup := by simpa using hc
    have hnCons : (v.value :: ((rest.map CodeValue.value) ++ names)).Nodup := by simpa using hn
    have hcNotMem := (List.nodup_cons.mp hcCons).1
    have hnNotMem := (List.nodup_cons.mp hnCons).1
    have hcodesNo : codes.contains v.code = false := by
      simp only [List.mem_append, not_or] at hcNotMem
      simp [hcNotMem.2]
    have hnamesNo : names.contains v.value = false := by
      simp only [List.mem_append, not_or] at hnNotMem
      simp [hnNotMem.2]
    have hcPerm : ((rest.map CodeValue.code) ++ (v.code :: codes)).Nodup := by
      refine (List.Perm.nodup_iff ?_).mp hcCons
      exact (List.perm_middle).symm
    have hnPerm : ((rest.map CodeValue.value) ++ (v.value :: names)).Nodup := by
      refine (List.Perm.nodup_iff ?_).mp hnCons
      exact (List.perm_middle).symm
    rcases ih (v.code :: codes) (v.value :: names) (if h < v.code then v.code else h)
        (fun w hw => hok w (by simp [hw])) hcPerm hnPerm with ⟨cs, ns, hscan, hmem⟩
    refine ⟨cs, ns, ?_, ?_⟩
    · simp only [codeScan, h1, h2, hcodesNo, hnamesNo, h3]
      simpa [hiFold] using hscan
    · intro c
      rw [hmem c]
      by_cases hc2 : c = v.code
      · subst hc2; simp
      · simp [List.contains, hc2]

theorem codeScan_dup_code (vs : List CodeValue) :
    ∀ (codes : List Int) (names : List String) (h : Int),
    (∀ v ∈ vs, codeEntryOk v = true) →
    codes.Nodup →
    ((vs.map CodeValue.value) ++ names).Nodup →
    ¬ ((vs.map CodeValue.code) ++ codes).Nodup →
    ∃ c : Int, codeScan vs codes names h =
      .error (.refErr ("Code column contains duplicate value code \"" ++ toString c ++ "\"")) := by
  induction vs with
  | nil =>
    intro codes names h _ hcodes _ hbad
    exact absurd (by simpa using hcodes) hbad
  | cons v rest ih =>
    intro codes names h hok hcodes hn hbad
    have hvok := hok v (by simp)
    have h1 : jsSafeIntZ v.code = true := by
      simp [codeEntryOk] at hvok; exact hvok.1.1
    have h2 : ¬(v.code < 0) := by
      simp [codeEntryOk] at hvok; omega
    have h3 : isCodeName v.value = true := by
      simp [codeEntryOk] at hvok; exact hvok.2
    have hnCons : (v.value :: ((rest.map CodeValue.value) ++ names)).Nodup := by simpa using hn
    have hnNotMem := (List.nodup_cons.mp hnCons).1
    have hnamesNo : names.contains v.value = false := by
      simp only [List.mem_append, not_or] at hnNotMem
      simp [hnNotMem.2]
    by_cases hdup : codes.contains v.code
    · refine ⟨v.code, ?_⟩
      simp only [codeScan, h1, h2, hdup, hnamesNo, h3]
      simp [h2]
    · have hnPerm : ((rest.map CodeValue.value) ++ (v.value :: names)).Nodup := by
        refine (List.Perm.nodup_iff ?_).mp hnCons
        exact (List.perm_middle).symm
      have hcodes2 : (v.code :: codes).Nodup := by
        refine List.nodup_cons.mpr ⟨?_, hcodes⟩
        simpa using hdup
      have hbad2 : ¬ ((rest.map CodeValue.code) ++ (v.code :: codes)).Nodup := by
        intro hgood
        apply hbad
        have hperm : ((rest.map CodeValue.code) ++ (v.code :: codes)).Perm
            (v.code :: ((rest.map CodeValue.code) ++ codes)) := List.perm_middle
        simpa using (List.Perm.nodup_iff hperm).mp hgood
      rcases ih (v.code :: codes) (v.value :: names) (if h < v.code then v.code else h)
          (fun w hw => hok w (by simp [hw])) hcodes2 hnPerm hbad2 with ⟨c, hres⟩
      refine ⟨c, ?_⟩
      have hdupF : codes.contains v.code = false := by simpa using hdup
      simp only [codeScan, h1, h2, hdupF, hnamesNo, h3]
      simpa [h2] using hres

theorem codeScan_dup_name (vs : List CodeValue) :
    ∀ (codes : List Int) (names : List String) (h : Int),
    (∀ v ∈ vs, codeEntryOk v = true) →
    names.Nodup →
    ((vs.map CodeValue.code) ++ codes).Nodup →
    ¬ ((vs.map CodeValue.value) ++ names).Nodup →
    ∃ s : String, codeScan vs codes names h =
      .error (.refErr ("Code column contains duplicate value name \"" ++ s ++ "\"")) := by
  induction vs with
  | nil =>
    intro codes names h _ hnames _ hbad
    exact absurd (by simpa using hnames) hbad
  | cons v rest ih =>
    intro codes names h hok hnames hc hbad
    have hvok := hok v (by simp)
    have h1 : jsSafeIntZ v.code = true := by
      simp [codeEntryOk] at hvok; exact hvok.1.1
    have h2 : ¬(v.code < 0) := by
      simp [codeEntryOk] at hvok; omega
    have h3 : isCodeName v.value = true := by
      simp [codeEntryOk] at hvok; exact hvok.2
    have hcCons : (v.code :: ((rest.map CodeValue.code) ++ codes)).Nodup := by simpa using hc
    have hcNotMem := (List.nodup_cons.mp hcCons).1
    have hcodesNo : codes.contains v.code = false := by
      simp only [List.mem_append, not_or] at hcNotMem
      simp [hcNotMem.2]
    by_cases hdup : names.contains v.value
    · refine ⟨v.value, ?_⟩
      simp only [codeScan, h1, h2, hcodesNo, hdup, h3]
      simp [h2]
    · have hcPerm : ((rest.map CodeValue.code) ++ (v.code :: codes)).Nodup := by
        refine (List.Perm.nodup_iff ?_).mp hcCons
        exact (List.perm_middle).symm
      have hnames2 : (v.value :: names).Nodup := by
        refine List.nodup_cons.mpr ⟨?_, hnames⟩
        simpa using hdup
      have hbad2 : ¬ ((rest.map CodeValue.value) ++ (v.value :: names)).Nodup := by
        intro hgood
        apply hbad
        have hperm : ((rest.map CodeValue.value) ++ (v.value :: names)).Perm
            (v.value :: ((rest.map CodeValue.value) ++ names)) := List.perm_middle
        simpa using (List.Perm.nodup_iff hperm).mp hgood
      rcases ih (v.code :: codes) (v.value :: names) (if h < v.code then v.code else h)
          (fun w hw => hok w (by simp [hw])) hnames2 hcPerm hbad2 with ⟨sv, hres⟩
      refine ⟨sv, ?_⟩
      have hdupF : names.contains v.value = false := by simpa using hdup
      simp only [codeScan, h1, h2, hcodesNo, hdupF, h3]
      simpa [h2] using hres

/-! ### Claim theorems -/

/-- C2: for every integer column, the absolute bounds used for validation
(sqlAbsMin/sqlAbsMax, the bounds processIntegerColumn checks explicit
bounds and defaults against) and for defaulting unresolved
minValue/maxValue (the bounds luaAttachBounds attaches) are exactly:
TINYINT [0,255] unsigned / [-128,127] signed; SMALLINT [0,65535] /
[-32768,32767]; MEDIUMINT [0,16777215] / [-8388608,8388607]; INT
[0,4294967295] / [-2147483648,2147483647]; BIGINT capped at 99999999999999
for both signednesses with signed minimum -99999999999999; and an
autoIncrement column defaults minValue to 1 regardless of signedness. -/
theorem claim_c2_integer_bounds :
    (∀ u ai : Bool,
      sqlAbsMin u "TINYINT" = (if u then 0 else -128)
      ∧ sqlAbsMax u "TINYINT" = (if u then 255 else 127)
      ∧ luaBoundsOf (luaAttachBounds (mkIntCol "TINYINT" u ai false none none none)) =
          some (some (.num (if ai then 1 else if u then 0 else -128)),
                some (.num (if u then 255 else 127))))
    ∧ (∀ u ai : Bool,
      sqlAbsMin u "SMALLINT" = (if u then 0 else -32768)
      ∧ sqlAbsMax u "SMALLINT" = (if u then 65535 else 32767)
      ∧ luaBoundsOf (luaAttachBounds (mkIntCol "SMALLINT" u ai false none none none)) =
          some (some (.num (if ai then 1 else if u then 0 else -32768)),
                some (.num (if u then 65535 else 32767))))
    ∧ (∀ u ai : Bool,
      sqlAbsMin u "MEDIUMINT" = (if u then 0 else -8388608)
      ∧ sqlAbsMax u "MEDIUMINT" = (if u then 16777215 else 8388607)
      ∧ luaBoundsOf (luaAttachBounds (mkIntCol "MEDIUMINT" u ai false none none none)) =
          some (some (.num (if ai then 1 else if u then 0 else -8388608)),
                some (.num (if u then 16777215 else 8388607))))
    ∧ (∀ u ai : Bool,
      sqlAbsMin u "INT" = (if u then 0 else -2147483648)
      ∧ sqlAbsMax u "INT" = (if u then 4294967295 else 2147483647)
      ∧ luaBoundsOf (luaAttachBounds (mkIntCol "INT" u ai false none none none)) =
          some (some (.num (if ai then 1 else if u then 0 else -2147483648)),
                some (.num (if u then 4294967295 else 2147483647))))
    ∧ (∀ u ai : Bool,
      sqlAbsMin u "BIGINT" = (if u then 0 else -99999999999999)
      ∧ sqlAbsMax u "BIGINT" = 99999999999999
      ∧ luaBoundsOf (luaAttachBounds (mkIntCol "BIGINT" u ai false none none none)) =
          some (some (.num (if ai then 1 else if u then 0 else -99999999999999)),
                some (.num 99999999999999))) := by
  refine ⟨?_, ?_, ?_, ?_, ?_⟩ <;> intro u ai <;> cases u <;> cases ai <;> exact ⟨rfl, rfl, rfl⟩

/-- C10 (implicit): integer-column validation only checks the explicit
minValue against the absolute minimum and the explicit maxValue against
the absolute maximum; it never compares minValue with maxValue, so a
column whose explicit minValue exceeds its explicit maxValue is accepted
by the SQL emitter and the descriptor emitter attaches the inverted pair
unchanged. -/
theorem claim_c10_no_min_le_max_check (sz : String) (u nb : Bool) (mn mx : Int)
    (hsz : sz ∈ INTEGER_SIZES) (hmn : sqlAbsMin u sz ≤ mn) (hmx : mx ≤ sqlAbsMax u sz) :
    exIsOk (processIntegerColumn (mkIntCol sz u false nb (some mn) (some mx) none)) = true
    ∧ luaBoundsOf (luaAttachBounds (mkIntCol sz u false nb (some mn) (some mx) none)) =
        some (some (.num mn), some (.num mx)) := by
  have h1 : decide (mn < sqlAbsMin u sz) = false := decide_eq_false (by omega)
  have h2 : decide (sqlAbsMax u sz < mx) = false := decide_eq_false (by omega)
  simp only [INTEGER_SIZES, List.mem_cons, List.not_mem_nil, or_false] at hsz
  rcases hsz with rfl | rfl | rfl | rfl | rfl <;> cases u <;>
    simp only [sqlAbsMin, sqlAbsMax, INTEGER_MIN, INTEGER_MAX_UNSIGNED, INTEGER_MAX_SIGNED,
      if_true, if_false, Bool.false_eq_true, reduceIte] at h1 h2 <;>
    refine ⟨?_, rfl⟩ <;>
    simp [processIntegerColumn, mkIntCol, objGet, truthy, isDef, jsLtNum, jsGtNum, jsToNum,
      jsSafeIntOpt, sqlAbsMin, sqlAbsMax, INTEGER_MIN, INTEGER_MAX_UNSIGNED, INTEGER_MAX_SIGNED,
      INTEGER_SIZES, exIsOk, h1, h2]

/-- Witness for C10 at the example shape given in the claim: TINYINT unsigned
with explicit minValue 1000 (above the absolute maximum 255) and explicit
maxValue 200 (in range) is accepted by both emitters. -/
theorem claim_c10_witness :
    exIsOk (processIntegerColumn (mkIntCol "TINYINT" true false false (some 1000) (some 200) none)) = true
    ∧ luaBoundsOf (luaAttachBounds (mkIntCol "TINYINT" true false false (some 1000) (some 200) none)) =
        some (some (.num 1000), some (.num 200)) :=
  claim_c10_no_min_le_max_check "TINYINT" true false 1000 200 (by decide)
    (by decide) (by decide)

/-- C9: the core/instance lookup of the descriptor emitter is a find-first
scan, so when a file declares two databases of the same type the scan
selects the first and the second is silently ignored during lookup; the
only structural check (the database count) accepts the file instead of
rejecting the duplicate type. -/
theorem claim_c9_duplicate_database_type (d1 d2 : Database)
    (h1 : d1.type = "fixed") (_h2 : d2.type = "fixed") :
    luaFindCore [d1, d2] = some d1 ∧ dbCountOk [d1, d2] = true := by
  refine ⟨?_, rfl⟩
  simp [luaFindCore, List.find?, h1]

/-- Witness for C9: two databases both of type fixed. -/
theorem claim_c9_witness :
    luaFindCore [⟨"alpha", "fixed", []⟩, ⟨"beta", "fixed", []⟩] = some ⟨"alpha", "fixed", []⟩
    ∧ dbCountOk [⟨"alpha", "fixed", []⟩, ⟨"beta", "fixed", []⟩] = true :=
  claim_c9_duplicate_database_type ⟨"alpha", "fixed", []⟩ ⟨"beta", "fixed", []⟩ rfl rfl

/-- C6: a present default value on a timestamp column is accepted if and
only if the column is unsigned and the default is strictly 0; a default on
a signed timestamp raises a plain error, and a non-zero default on an
unsigned timestamp raises a range error. -/
theorem claim_c6_timestamp_default (u : Bool) (d : JVal) (hd : isDefV d = true) :
    (exIsOk (processTimestampColumn (mkTsCol u (some d))) = true ↔ (u = true ∧ d = .num 0))
    ∧ (u = false → processTimestampColumn (mkTsCol false (some d)) =
        .error (.plainErr "Default values for signed timestamps are not allowed"))
    ∧ (u = true → ¬(d = .num 0) → processTimestampColumn (mkTsCol true (some d)) =
        .error (.rangeErr ("Timestamp column has non-zero default value \"" ++ jsDisplay d ++ "\"")))
    ∧ (u = true → d = .num 0 → processTimestampColumn (mkTsCol u (some d)) =
        .ok "BIGINT UNSIGNED NOT NULL DEFAULT 0") := by
  have hd2 : isDef (some d) = true := hd
  refine ⟨?_, ?_, ?_, ?_⟩
  · cases u with
    | false => simp [processTimestampColumn, mkTsCol, objGet, truthy, hd2, exIsOk]
    | true =>
      by_cases hz : d = .num 0
      · subst hz
        simp [processTimestampColumn, mkTsCol, objGet, truthy, hd2, exIsOk]
      · simp [processTimestampColumn, mkTsCol, objGet, truthy, hd2, exIsOk, hz]
  · intro hu
    simp [processTimestampColumn, mkTsCol, objGet, truthy, hd2]
  · intro hu hz
    simp [processTimestampColumn, mkTsCol, objGet, truthy, hd2, hz, jsDisplayOpt]
  · intro hu hz
    subst hu hz
    rfl

/-- Witness for C6: an unsigned timestamp with default 0 is accepted. -/
theorem claim_c6_witness :
    (exIsOk (processTimestampColumn (mkTsCol true (some (.num 0)))) = true ↔
      (true = true ∧ JVal.num 0 = .num 0))
    ∧ (true = false → processTimestampColumn (mkTsCol false (some (.num 0))) =
        .error (.plainErr "Default values for signed timestamps are not allowed"))
    ∧ (true = true → ¬(JVal.num 0 = .num 0) → processTimestampColumn (mkTsCol true (some (.num 0))) =
        .error (.rangeErr ("Timestamp column has non-zero default value \"" ++ jsDisplay (.num 0) ++ "\"")))
    ∧ (true = true → JVal.num 0 = .num 0 → processTimestampColumn (mkTsCol true (some (.num 0))) =
        .ok "BIGINT UNSIGNED NOT NULL DEFAULT 0") :=
  claim_c6_timestamp_default true (.num 0) (by decide)

theorem processCodeColumn_mk (vs : List CodeValue) (nb : Bool) (dv : Option JVal) :
    processCodeColumn (mkCodeCol vs nb dv) =
      (if vs.length == 0 then .error (.plainErr "Code column has no values")
       else
         match codeScan vs [] [] 0 with
         | .error e => .error e
         | .ok (codes, _, highest) =>
           if decide (255 < highest) then
             .error (.rangeErr ("Code column contains too large value code \"" ++ toString highest ++ "\""))
           else
             if isDef (objGet (mkCodeCol vs nb dv) "defaultValue")
                 && !(codeSetHas codes (objGet (mkCodeCol vs nb dv) "defaultValue")) then
               .error (.refErr ("Code column has unknown default value \""
                 ++ jsDisplayOpt (objGet (mkCodeCol vs nb dv) "defaultValue") ++ "\""))
             else
               .ok ("TINYINT UNSIGNED "
                 ++ (if truthy (objGet (mkCodeCol vs nb dv) "nullable") then "NULL" else "NOT NULL") ++ " "
                 ++ (if isDef (objGet (mkCodeCol vs nb dv) "defaultValue")
                     then "DEFAULT " ++ jsDisplayOpt (objGet (mkCodeCol vs nb dv) "defaultValue")
                     else ""))) := rfl

/-- C5: a code column rejects an empty value list; rejects duplicate codes
and duplicate names with a reference error; rejects a highest code above
255 with a range error while accepting codes up to 255 exactly; and
rejects a present default value that is not one of the declared codes with
a reference error while accepting a declared one. -/
theorem claim_c5_code_column_validation :
    (∀ (nb : Bool) (dv : Option JVal), processCodeColumn (mkCodeCol [] nb dv) =
        .error (.plainErr "Code column has no values"))
    ∧ (∀ (vs : List CodeValue) (nb : Bool) (dv : Option JVal),
        (∀ v ∈ vs, codeEntryOk v = true) →
        (vs.map CodeValue.value).Nodup →
        ¬ (vs.map CodeValue.code).Nodup →
        ∃ c : Int, processCodeColumn (mkCodeCol vs nb dv) =
          .error (.refErr ("Code column contains duplicate value code \"" ++ toString c ++ "\"")))
    ∧ (∀ (vs : List CodeValue) (nb : Bool) (dv : Option JVal),
        (∀ v ∈ vs, codeEntryOk v = true) →
        (vs.map CodeValue.code).Nodup →
        ¬ (vs.map CodeValue.value).Nodup →
        ∃ s : String, processCodeColumn (mkCodeCol vs nb dv) =
          .error (.refErr ("Code column contains duplicate value name \"" ++ s ++ "\"")))
    ∧ (∀ (vs : List CodeValue) (nb : Bool),
        (∀ v ∈ vs, codeEntryOk v = true) →
        (vs.map CodeValue.code).Nodup →
        (vs.map CodeValue.value).Nodup →
        (∃ v ∈ vs, 255 < v.code) →
        ∃ c : Int, 255 < c ∧ processCodeColumn (mkCodeCol vs nb none) =
          .error (.rangeErr ("Code column contains too large value code \"" ++ toString c ++ "\"")))
    ∧ (∀ (vs : List CodeValue) (nb : Bool),
        vs ≠ [] →
        (∀ v ∈ vs, codeEntryOk v = true) →
        (vs.map CodeValue.code).Nodup →
        (vs.map CodeValue.value).Nodup →
        (∀ v ∈ vs, v.code ≤ 255) →
        exIsOk (processCodeColumn (mkCodeCol vs nb none)) = true)
    ∧ (∀ (vs : List CodeValue) (nb : Bool) (d : Int),
        vs ≠ [] →
        (∀ v ∈ vs, codeEntryOk v = true) →
        (vs.map CodeValue.code).Nodup →
        (vs.map CodeValue.value).Nodup →
        (∀ v ∈ vs, v.code ≤ 255) →
        (¬ ∃ v ∈ vs, v.code = d) →
        processCodeColumn (mkCodeCol vs nb (some (.num d))) =
          .error (.refErr ("Code column has unknown default value \"" ++ toString d ++ "\"")))
    ∧ (∀ (vs : List CodeValue) (nb : Bool) (d : Int),
        vs ≠ [] →
        (∀ v ∈ vs, codeEntryOk v = true) →
        (vs.map CodeValue.code).Nodup →
        (vs.map CodeValue.value).Nodup →
        (∀ v ∈ vs, v.code ≤ 255) →
        (∃ v ∈ vs, v.code = d) →
        exIsOk (processCodeColumn (mkCodeCol vs nb (some (.num d)))) = true) := by
  refine ⟨fun nb dv => rfl, ?_, ?_, ?_, ?_, ?_, ?_⟩
  · intro vs nb dv hok hn hbad
    obtain ⟨c, hscan⟩ := codeScan_dup_code vs [] [] 0 hok List.nodup_nil (by simpa using hn)
      (by simpa using hbad)
    have hne : vs ≠ [] := by
      intro hEq; subst hEq; exact hbad (by simp)
    have hlen : (vs.length == 0) = false := by
      cases vs with
      | nil => exact absurd rfl hne
      | cons a l => rfl
    refine ⟨c, ?_⟩
    rw [processCodeColumn_mk, hscan]
    simp [hlen]
  · intro vs nb dv hok hc hbad
    obtain ⟨sv, hscan⟩ := codeScan_dup_name vs [] [] 0 hok List.nodup_nil (by simpa using hc)
      (by simpa using hbad)
    have hne : vs ≠ [] := by
      intro hEq; subst hEq; exact hbad (by simp)
    have hlen : (vs.length == 0) = false := by
      cases vs with
      | nil => exact absurd rfl hne
      | cons a l => rfl
    refine ⟨sv, ?_⟩
    rw [processCodeColumn_mk, hscan]
    simp [hlen]
  · intro vs nb hok hc hn hbig
    obtain ⟨cs, ns, hscan, _⟩ := codeScan_ok vs [] [] 0 hok (by simpa using hc) (by simpa using hn)
    obtain ⟨v, hv, hv255⟩ := hbig
    have hhi : 255 < hiFold vs 0 := lt_of_lt_of_le hv255 (hiFold_mem_le vs v hv 0)
    have hne : vs ≠ [] := by
      intro hEq; subst hEq; cases hv
    have hlen : (vs.length == 0) = false := by
      cases vs with
      | nil => exact absurd rfl hne
      | cons a l => rfl
    refine ⟨hiFold vs 0, hhi, ?_⟩
    rw [processCodeColumn_mk, hscan]
    simp [hlen, hhi]
  · intro vs nb hne hok hc hn hle
    obtain ⟨cs, ns, hscan, _⟩ := codeScan_ok vs [] [] 0 hok (by simpa using hc) (by simpa using hn)
    have hhi : hiFold vs 0 ≤ 255 := hiFold_le vs 255 hle 0 (by omega)
    have hlen : (vs.length == 0) = false := by
      cases vs with
      | nil => exact absurd rfl hne
      | cons a l => rfl
    rw [processCodeColumn_mk, hscan]
    have hnotgt : decide (255 < hiFold vs 0) = false := decide_eq_false (by omega)
    simp [hlen, hnotgt, isDef, exIsOk, mkCodeCol, objGet]
  · intro vs nb d hne hok hc hn hle hnomem
    obtain ⟨cs, ns, hscan, hmem⟩ := codeScan_ok vs [] [] 0 hok (by simpa using hc) (by simpa using hn)
    have hhi : hiFold vs 0 ≤ 255 := hiFold_le vs 255 hle 0 (by omega)
    have hlen : (vs.length == 0) = false := by
      cases vs with
      | nil => exact absurd rfl hne
      | cons a l => rfl
    have hnotgt : decide (255 < hiFold vs 0) = false := decide_eq_false (by omega)
    have hdv : objGet (mkCodeCol vs nb (some (.num d))) "defaultValue" = some (.num d) := rfl
    have hcontains : cs.contains d = false := by
      rw [hmem d]
      simp [hnomem]
    have hd3 : d ∉ cs := by simpa using hcontains
    rw [processCodeColumn_mk, hscan]
    simp [hlen, hnotgt, hdv, isDef, codeSetHas, hd3, jsDisplayOpt, jsDisplay]
  · intro vs nb d hne hok hc hn hle hmem2
    obtain ⟨cs, ns, hscan, hmem⟩ := codeScan_ok vs [] [] 0 hok (by simpa using hc) (by simpa using hn)
    have hhi : hiFold vs 0 ≤ 255 := hiFold_le vs 255 hle 0 (by omega)
    have hlen : (vs.length == 0) = false := by
      cases vs with
      | nil => exact absurd rfl hne
      | cons a l => rfl
    have hnotgt : decide (255 < hiFold vs 0) = false := decide_eq_false (by omega)
    have hdv : objGet (mkCodeCol vs nb (some (.num d))) "defaultValue" = some (.num d) := rfl
    have hcontains : cs.contains d = true := by
      rw [hmem d]
      simp [hmem2]
    have hd3 : d ∈ cs := by simpa using hcontains
    rw [processCodeColumn_mk, hscan]
    simp [hlen, hnotgt, hdv, isDef, codeSetHas, hd3, exIsOk]

/-- Witness for C5: the empty list, the duplicate-code pair of the test of the spec
itself, a duplicate-name pair, code 256 rejected, code 255 accepted, an
unknown default 4 rejected and a declared default 3 accepted. -/
theorem claim_c5_witness :
    processCodeColumn (mkCodeCol [] false none) = .error (.plainErr "Code column has no values")
    ∧ (∃ c : Int, processCodeColumn (mkCodeCol [⟨0, "A"⟩, ⟨0, "B"⟩] false none) =
        .error (.refErr ("Code column contains duplicate value code \"" ++ toString c ++ "\"")))
    ∧ (∃ s : String, processCodeColumn (mkCodeCol [⟨0, "A"⟩, ⟨1, "A"⟩] false none) =
        .error (.refErr ("Code column contains duplicate value name \"" ++ s ++ "\"")))
    ∧ (∃ c : Int, 255 < c ∧ processCodeColumn (mkCodeCol [⟨256, "A"⟩] false none) =
        .error (.rangeErr ("Code column contains too large value code \"" ++ toString c ++ "\"")))
    ∧ exIsOk (processCodeColumn (mkCodeCol [⟨255, "A"⟩] false none)) = true
    ∧ processCodeColumn (mkCodeCol [⟨3, "A"⟩] false (some (.num 4))) =
        .error (.refErr ("Code column has unknown default value \"" ++ toString (4 : Int) ++ "\""))
    ∧ exIsOk (processCodeColumn (mkCodeCol [⟨3, "A"⟩] false (some (.num 3)))) = true :=
  ⟨claim_c5_code_column_validation.1 false none,
   claim_c5_code_column_validation.2.1 [⟨0, "A"⟩, ⟨0, "B"⟩] false none (by decide) (by decide) (by decide),
   claim_c5_code_column_validation.2.2.1 [⟨0, "A"⟩, ⟨1, "A"⟩] false none (by decide) (by decide) (by decide),
   claim_c5_code_column_validation.2.2.2.1 [⟨256, "A"⟩] false (by decide) (by decide) (by decide)
     ⟨⟨256, "A"⟩, by decide⟩,
   claim_c5_code_column_validation.2.2.2.2.1 [⟨255, "A"⟩] false (by decide) (by decide) (by decide)
     (by decide) (by decide),
   claim_c5_code_column_validation.2.2.2.2.2.1 [⟨3, "A"⟩] false 4 (by decide) (by decide) (by decide)
     (by decide) (by decide) (by decide),
   claim_c5_code_column_validation.2.2.2.2.2.2 [⟨3, "A"⟩] false 3 (by decide) (by decide) (by decide)
     (by decide) (by decide) ⟨⟨3, "A"⟩, by decide⟩⟩

/-- C7: SQL emission is all-or-nothing per database: a database containing
any failing table produces no SQL (the accumulated statement text is
discarded, so processDatabaseSql cannot succeed); but when a file declares
two databases and only the second fails, the write already performed for
the first database stays in the write list while the second contributes
nothing. -/
theorem claim_c7_all_or_nothing (db : Database) (databases : List Database)
    (t : Table) (e : JsError) (ht : t ∈ db.tables)
    (herr : processTable t db databases = .error e) :
    (∀ s, processDatabaseSql db databases ≠ .ok s)
    ∧ (∀ (fname : String) (db1 : Database) (s1 : String) (e2 : JsError),
        processDatabaseSql db1 [db1, db] = .ok s1 →
        processDatabaseSql db [db1, db] = .error e2 →
        sqlEmitWrites fname [db1, db] = ([(fname ++ ".sql", s1)], some e2)) := by
  constructor
  · intro s
    exact sqlTablesGo_not_ok_of_mem db databases t e herr db.tables ht (sqlDbHeader db.name) s
  · intro fname db1 s1 e2 h1 h2
    simp [sqlEmitWrites, sqlEmitGo, h1, h2]

/-- Witness for C7: a file with an empty first database and a second
database containing a table whose name fails the naming pattern; the
write of the first database survives, the second produces nothing. -/
theorem claim_c7_witness :
    ((∀ s, processDatabaseSql
        ⟨"b", "fixed", [⟨"BAD", "fixed", [], []⟩]⟩
        [⟨"a", "fixed", []⟩, ⟨"b", "fixed", [⟨"BAD", "fixed", [], []⟩]⟩] ≠ .ok s)
    ∧ (∀ (fname : String) (db1 : Database) (s1 : String) (e2 : JsError),
        processDatabaseSql db1 [db1, ⟨"b", "fixed", [⟨"BAD", "fixed", [], []⟩]⟩] = .ok s1 →
        processDatabaseSql ⟨"b", "fixed", [⟨"BAD", "fixed", [], []⟩]⟩
          [db1, ⟨"b", "fixed", [⟨"BAD", "fixed", [], []⟩]⟩] = .error e2 →
        sqlEmitWrites fname [db1, ⟨"b", "fixed", [⟨"BAD", "fixed", [], []⟩]⟩] =
          ([(fname ++ ".sql", s1)], some e2))) :=
  claim_c7_all_or_nothing ⟨"b", "fixed", [⟨"BAD", "fixed", [], []⟩]⟩
    [⟨"a", "fixed", []⟩, ⟨"b", "fixed", [⟨"BAD", "fixed", [], []⟩]⟩]
    ⟨"BAD", "fixed", [], []⟩ (.plainErr "Invalid table name \"BAD\"") (by decide) rfl

/-- C8: compilation is deterministic (equal inputs give byte-identical SQL
write lists and byte-identical descriptor text), the SQL text of a
database is its header followed by the per-table SQL in declaration order,
and descriptor table emission only ever appends to the output, so
descriptor ordering follows declaration order. -/
theorem claim_c8_deterministic_insertion_order :
    (∀ (fname : String) (dbs dbs2 : List Database), dbs = dbs2 →
      sqlEmitWrites fname dbs = sqlEmitWrites fname dbs2 ∧ luaEmitFile dbs = luaEmitFile dbs2)
    ∧ (∀ (db : Database) (databases : List Database),
        processDatabaseSql db databases =
          (match sqlTablesSeq db databases db.tables with
           | .error e => .error e
           | .ok l => .ok (sqlDbHeader db.name ++ strConcat l)))
    ∧ (∀ (side : String) (ti : Nat) (st st2 : LuaSt),
        luaWriteTable side ti st = .ok st2 → ∃ s, st2.out = st.out ++ s) := by
  refine ⟨?_, ?_, ?_⟩
  · intro fname dbs dbs2 h
    subst h
    exact ⟨rfl, rfl⟩
  · intro db databases
    exact sqlTablesGo_eq_seq db databases db.tables (sqlDbHeader db.name)
  · exact luaWriteTable_out_append

/-- Witness for C8: the two-run equalities at a concrete input and the
append-only property at a state whose side has no table at index 0. -/
theorem claim_c8_witness :
    (sqlEmitWrites "f" [⟨"a", "fixed", []⟩] = sqlEmitWrites "f" [⟨"a", "fixed", []⟩]
      ∧ luaEmitFile [⟨"a", "fixed", []⟩] = luaEmitFile [⟨"a", "fixed", []⟩])
    ∧ (∃ s, (⟨some ⟨"a", "fixed", []⟩, none, "x"⟩ : LuaSt).out =
        (⟨some ⟨"a", "fixed", []⟩, none, "x"⟩ : LuaSt).out ++ s) :=
  ⟨claim_c8_deterministic_insertion_order.1 "f" [⟨"a", "fixed", []⟩] [⟨"a", "fixed", []⟩] rfl,
   claim_c8_deterministic_insertion_order.2.2 "core" 0
     ⟨some ⟨"a", "fixed", []⟩, none, "x"⟩ ⟨some ⟨"a", "fixed", []⟩, none, "x"⟩ rfl⟩

/-- Counterexample for C1: the two emitters do not make the same
accept/reject decisions, and the attached bounds can differ from the
validation bounds.  A TINYINT column with explicit minValue -1000 is
rejected by the SQL emitter (range error) but accepted by the descriptor
emitter; and an unsigned TINYINT autoIncrement column gets descriptor
minValue 1 while the SQL emitter validates against absolute minimum 0. -/
theorem claim_c1_cex :
    exIsOk (processDatabaseSql c1Db [c1Db]) = false
    ∧ exIsOk (luaEmitFile [c1Db]) = true
    ∧ luaBoundsOf (luaAttachBounds (mkIntCol "TINYINT" true true false none none none)) =
        some (some (.num 1), some (.num 255))
    ∧ sqlAbsMin true "TINYINT" = 0 :=
  ⟨rfl, rfl, rfl, rfl⟩

/-- C1 as amended: for integer columns with a valid size, no explicit
bounds, no default and autoIncrement unset, both emitters accept and the
(minValue, maxValue) pair the descriptor emitter attaches equals the
absolute pair the SQL emitter validates against; outside this class the
emitters can disagree because the descriptor emitter performs no range
validation and an autoIncrement column gets minValue 1 instead of the
validation bound. -/
theorem claim_c1_amended :
    (∀ u nb : Bool,
      exIsOk (processIntegerColumn (mkIntCol "TINYINT" u false nb none none none)) = true
      ∧ luaBoundsOf (luaAttachBounds (mkIntCol "TINYINT" u false nb none none none)) =
          some (some (.num (sqlAbsMin u "TINYINT")), some (.num (sqlAbsMax u "TINYINT"))))
    ∧ (∀ u nb : Bool,
      exIsOk (processIntegerColumn (mkIntCol "SMALLINT" u false nb none none none)) = true
      ∧ luaBoundsOf (luaAttachBounds (mkIntCol "SMALLINT" u false nb none none none)) =
          some (some (.num (sqlAbsMin u "SMALLINT")), some (.num (sqlAbsMax u "SMALLINT"))))
    ∧ (∀ u nb : Bool,
      exIsOk (processIntegerColumn (mkIntCol "MEDIUMINT" u false nb none none none)) = true
      ∧ luaBoundsOf (luaAttachBounds (mkIntCol "MEDIUMINT" u false nb none none none)) =
          some (some (.num (sqlAbsMin u "MEDIUMINT")), some (.num (sqlAbsMax u "MEDIUMINT"))))
    ∧ (∀ u nb : Bool,
      exIsOk (processIntegerColumn (mkIntCol "INT" u false nb none none none)) = true
      ∧ luaBoundsOf (luaAttachBounds (mkIntCol "INT" u false nb none none none)) =
          some (some (.num (sqlAbsMin u "INT")), some (.num (sqlAbsMax u "INT"))))
    ∧ (∀ u nb : Bool,
      exIsOk (processIntegerColumn (mkIntCol "BIGINT" u false nb none none none)) = true
      ∧ luaBoundsOf (luaAttachBounds (mkIntCol "BIGINT" u false nb none none none)) =
          some (some (.num (sqlAbsMin u "BIGINT")), some (.num (sqlAbsMax u "BIGINT")))) := by
  refine ⟨?_, ?_, ?_, ?_, ?_⟩ <;> intro u nb <;> cases u <;> cases nb <;> exact ⟨rfl, rfl⟩

/-- Counterexample for C3: an FK whose target column is nullable is
rejected by the SQL path with a TYPE error (not a reference error), while
the descriptor path accepts the whole file without any error. -/
theorem claim_c3_cex :
    processTable c3FkTable c3Db [c3Db] =
      .error (.typeErr "FK reference column is nullable, not suitable for FK reference")
    ∧ exIsOk (luaEmitFile [c3Db]) = true :=
  ⟨rfl, rfl⟩

/-- C3 as amended: in the SQL emission path, FK resolution fails with a
reference error when the named database, table or column does not exist,
but a nullable target fails with a TYPE error; the descriptor emission
path behaves differently: a missing column is a reference error, a found
target is accepted regardless of nullability, a missing table is an
uncontrolled native TypeError crash, and a three-segment path naming a
database that matches neither declared database silently resolves against
the instance database exactly like an instance-side two-segment path. -/
theorem claim_c3_amended :
    (∀ (dn tn cn : String) (database : Database) (databases : List Database),
      cn ≠ "" → tn ≠ "" →
      databases.find? (fun db => db.name == dn) = none →
      sqlResolveFkTarget [dn, tn, cn] database databases =
        .error (.refErr "Non-existent database provided for FK reference column"))
    ∧ (∀ (tn cn : String) (database : Database) (databases : List Database),
      cn ≠ "" → tn ≠ "" →
      database.tables.find? (fun t => t.name == tn) = none →
      sqlResolveFkTarget [tn, cn] database databases =
        .error (.refErr "Non-existent table provided for FK reference column"))
    ∧ (∀ (tn cn : String) (database : Database) (databases : List Database) (tbl : Table),
      cn ≠ "" → tn ≠ "" →
      database.tables.find? (fun t => t.name == tn) = some tbl →
      tbl.columns.find? (fun c => objGet c "name" == some (.str cn)) = none →
      sqlResolveFkTarget [tn, cn] database databases =
        .error (.refErr "Non-existent column provided for FK reference column"))
    ∧ (∀ (col : JsObj) (colName path : String) (database : Database) (databases : List Database)
        (tdb : Database) (ttab : Table) (tcol : JsObj),
      objGet col "column" = some (.str path) →
      sqlResolveFkTarget (strSplitDot path) database databases = .ok (tdb, ttab, tcol) →
      truthy (objGet tcol "nullable") = true →
      sqlFkColumn col colName database databases =
        .error (.typeErr "FK reference column is nullable, not suitable for FK reference"))
    ∧ (∀ (core inst : Option Database) (side : String) (tn cn pathStr : String)
        (cdb : Database) (tbl : Table),
      (if side == "core" then core else inst) = some cdb →
      cdb.tables.find? (fun t => t.name == tn) = some tbl →
      tbl.columns.find? (fun c => jsLooseEqName (objGet c "name") (some cn)) = none →
      luaFkLookup core inst side [tn, cn] pathStr =
        .error (.refErr (pathStr ++ " column for FK not found")))
    ∧ (∀ (core inst : Option Database) (side : String) (tn cn pathStr : String)
        (cdb : Database) (tbl : Table) (fkCol : JsObj),
      (if side == "core" then core else inst) = some cdb →
      cdb.tables.find? (fun t => t.name == tn) = some tbl →
      tbl.columns.find? (fun c => jsLooseEqName (objGet c "name") (some cn)) = some fkCol →
      luaFkLookup core inst side [tn, cn] pathStr = .ok fkCol)
    ∧ (∀ (core inst : Option Database) (side : String) (tn cn pathStr : String)
        (cdb : Database),
      (if side == "core" then core else inst) = some cdb →
      cdb.tables.find? (fun t => t.name == tn) = none →
      luaFkLookup core inst side [tn, cn] pathStr =
        .error (.crashErr "Cannot read property columns of undefined"))
    ∧ (∀ (c idb : Database) (side dn tn cn pathStr : String), dn ≠ c.name →
      luaFkLookup (some c) (some idb) side [dn, tn, cn] pathStr =
        luaFkLookup (some c) (some idb) "inst" [tn, cn] pathStr) := by
  refine ⟨?_, ?_, ?_, ?_, ?_, ?_, ?_, ?_⟩
  · intro dn tn cn database databases hcn htn hfind
    simp [sqlResolveFkTarget, hcn, htn, hfind]
  · intro tn cn database databases hcn htn hfind
    simp [sqlResolveFkTarget, hcn, htn, hfind]
  · intro tn cn database databases tbl hcn htn hft hfc
    simp [sqlResolveFkTarget, hcn, htn, hft, hfc]
  · intro col colName path database databases tdb ttab tcol hcol hres hnul
    simp [sqlFkColumn, hcol, hres, hnul]
  · intro core inst side tn cn pathStr cdb tbl hdb hft hfc
    have hdb2 : (if side = "core" then core else inst) = some cdb := by simpa using hdb
    simp [luaFkLookup, hdb2, hft, hfc]
  · intro core inst side tn cn pathStr cdb tbl fkCol hdb hft hfc
    have hdb2 : (if side = "core" then core else inst) = some cdb := by simpa using hdb
    simp [luaFkLookup, hdb2, hft, hfc]
  · intro core inst side tn cn pathStr cdb hdb hft
    have hdb2 : (if side = "core" then core else inst) = some cdb := by simpa using hdb
    simp [luaFkLookup, hdb2, hft]
  · intro c idb side dn tn cn pathStr hdn
    simp [luaFkLookup, hdn]

/-- Witness for C3: each conjunct of the amended claim exercised on the
concrete counterexample database. -/
theorem claim_c3_witness :
    sqlResolveFkTarget ["nope", "u", "uid"] c3Db [c3Db] =
      .error (.refErr "Non-existent database provided for FK reference column")
    ∧ sqlResolveFkTarget ["missing", "uid"] c3Db [c3Db] =
      .error (.refErr "Non-existent table provided for FK reference column")
    ∧ sqlResolveFkTarget ["u", "missing"] c3Db [c3Db] =
      .error (.refErr "Non-existent column provided for FK reference column")
    ∧ sqlFkColumn c3Fk "ref" c3Db [c3Db] =
      .error (.typeErr "FK reference column is nullable, not suitable for FK reference")
    ∧ luaFkLookup (some c3Db) none "core" ["u", "missing"] "u.missing" =
      .error (.refErr ("u.missing" ++ " column for FK not found"))
    ∧ luaFkLookup (some c3Db) none "core" ["u", "uid"] "u.uid" = .ok c3Target
    ∧ luaFkLookup (some c3Db) none "core" ["missing", "uid"] "missing.uid" =
      .error (.crashErr "Cannot read property columns of undefined")
    ∧ luaFkLookup (some c3Db) (some c3InstDb) "core" ["nope", "u", "uid"] "nope.u.uid" =
      luaFkLookup (some c3Db) (some c3InstDb) "inst" ["u", "uid"] "nope.u.uid" :=
  ⟨claim_c3_amended.1 "nope" "u" "uid" c3Db [c3Db] (by decide) (by decide) rfl,
   claim_c3_amended.2.1 "missing" "uid" c3Db [c3Db] (by decide) (by decide) rfl,
   claim_c3_amended.2.2.1 "u" "missing" c3Db [c3Db] c3UTable (by decide) (by decide) rfl rfl,
   claim_c3_amended.2.2.2.1 c3Fk "ref" "u.uid" c3Db [c3Db] c3Db c3UTable c3Target rfl rfl rfl,
   claim_c3_amended.2.2.2.2.1 (some c3Db) none "core" "u" "missing" "u.missing" c3Db c3UTable
     rfl rfl rfl,
   claim_c3_amended.2.2.2.2.2.1 (some c3Db) none "core" "u" "uid" "u.uid" c3Db c3UTable c3Target
     rfl rfl rfl,
   claim_c3_amended.2.2.2.2.2.2.1 (some c3Db) none "core" "missing" "uid" "missing.uid" c3Db
     rfl rfl,
   claim_c3_amended.2.2.2.2.2.2.2 c3Db c3InstDb "core" "nope" "u" "uid" "nope.u.uid" (by decide)⟩

/-- Counterexample for C4: in the descriptor path the own
defaultValue of the FK declaration does NOT replace that of the target (the
copy keeps target default 5, dropping FK default 7); and in the SQL path an FK to a code
column does not become a plain bounded integer but is rejected with a
type error. -/
theorem claim_c4_cex :
    (∃ copy, luaResolveFk (some (c4SqlDb "INT" true false)) none "core" (c4SqlFk false) = .ok copy
      ∧ objGet copy "defaultValue" = some (.num 5))
    ∧ sqlFkColumn c4CodeFk "ref" c4CodeDb [c4CodeDb] =
        .error (.typeErr "FK reference column has type not suitable as FK reference") :=
  ⟨⟨_, rfl, rfl⟩, rfl⟩

/-- C4 as amended: in the descriptor path the resolved FK column is a copy
of the target record with only name and nullable overridden by the own values of the FK
declaration and the values field removed — every other
target field (defaultValue, autoIncrement, type, size, bounds) is
retained and the own defaultValue of the FK is dropped.  In the SQL path the
FK column clause is the rendered type of the target with AUTO_INCREMENT and
the target DEFAULT clause stripped, with the own nullable and defaultValue of the FK declaration applied; only integer and serial targets are
accepted there (a code target is a type error, per the counterexample). -/
theorem claim_c4_amended :
    (∀ (core inst : Option Database) (side : String) (col : JsObj) (pathStr : String)
        (fkCol : JsObj),
      objGet col "column" = some (.str pathStr) →
      luaFkLookup core inst side (strSplitDot pathStr) pathStr = .ok fkCol →
      (fkCol.map Prod.fst).Nodup →
      ∃ copy, luaResolveFk core inst side col = .ok copy
        ∧ objGet copy "name" = some (objGetOr col "name")
        ∧ objGet copy "nullable" = some (objGetOr col "nullable")
        ∧ objGet copy "values" = none
        ∧ (∀ k, k ≠ "name" → k ≠ "nullable" → k ≠ "values" →
            objGet copy k = objGet fkCol k))
    ∧ (∀ (u fkNull : Bool) (sz : String), sz ∈ INTEGER_SIZES →
        sqlFkColumn (c4SqlFk fkNull) "ref" (c4SqlDb sz u fkNull) [c4SqlDb sz u fkNull] =
          .ok (sz ++ " " ++ (if u then "UNSIGNED" else "") ++ " "
            ++ (if fkNull then "NULL" else "NOT NULL") ++ "  DEFAULT 7", []))
    ∧ (∀ (fkNull : Bool) (sz : String), sz ∈ INTEGER_SIZES →
        sqlFkColumn (c4SqlFk fkNull) "ref" (c4SerialDb sz fkNull) [c4SerialDb sz fkNull] =
          .ok (sz ++ " UNSIGNED " ++ (if fkNull then "NULL" else "NOT NULL")
            ++ "  DEFAULT 7", [])) := by
  refine ⟨?_, ?_, ?_⟩
  · intro core inst side col pathStr fkCol hcol hlook hnd
    refine ⟨objDelete (objSet (objSet (objAssignAll [] fkCol) "name" (objGetOr col "name"))
      "nullable" (objGetOr col "nullable")) "values", ?_, ?_, ?_, ?_, ?_⟩
    · simp [luaResolveFk, hcol, hlook]
    · rw [objGet_objDelete_ne _ _ _ (by decide), objGet_objSet_ne _ _ _ _ (by decide)]
      exact objGet_objSet_self _ _ _
    · rw [objGet_objDelete_ne _ _ _ (by decide)]
      exact objGet_objSet_self _ _ _
    · exact objGet_objDelete_self _ _
    · intro k hk1 hk2 hk3
      rw [objGet_objDelete_ne _ _ _ hk3, objGet_objSet_ne _ _ _ _ hk2,
        objGet_objSet_ne _ _ _ _ hk1, objAssignAll_nil fkCol hnd]
  · intro u fkNull sz hsz
    simp only [INTEGER_SIZES, List.mem_cons, List.not_mem_nil, or_false] at hsz
    rcases hsz with rfl | rfl | rfl | rfl | rfl <;> cases u <;> cases fkNull <;> rfl
  · intro fkNull sz hsz
    simp only [INTEGER_SIZES, List.mem_cons, List.not_mem_nil, or_false] at hsz
    rcases hsz with rfl | rfl | rfl | rfl | rfl <;> cases fkNull <;> rfl

/-- Witness for C4: the amended statement exercised at the concrete
integer target (with its own default 5) and at a serial target. -/
theorem claim_c4_witness :
    (∃ copy, luaResolveFk (some (c4SqlDb "INT" true false)) none "core" (c4SqlFk false) = .ok copy
      ∧ objGet copy "name" = some (objGetOr (c4SqlFk false) "name")
      ∧ objGet copy "nullable" = some (objGetOr (c4SqlFk false) "nullable")
      ∧ objGet copy "values" = none
      ∧ (∀ k, k ≠ "name" → k ≠ "nullable" → k ≠ "values" →
          objGet copy k = objGet (c4SqlTarget "INT" true) k))
    ∧ sqlFkColumn (c4SqlFk false) "ref" (c4SqlDb "TINYINT" true false)
        [c4SqlDb "TINYINT" true false] =
        .ok ("TINYINT" ++ " " ++ (if true then "UNSIGNED" else "") ++ " "
          ++ (if false then "NULL" else "NOT NULL") ++ "  DEFAULT 7", [])
    ∧ sqlFkColumn (c4SqlFk false) "ref" (c4SerialDb "BIGINT" false)
        [c4SerialDb "BIGINT" false] =
        .ok ("BIGINT" ++ " UNSIGNED " ++ (if false then "NULL" else "NOT NULL")
          ++ "  DEFAULT 7", []) :=
  ⟨claim_c4_amended.1 (some (c4SqlDb "INT" true false)) none "core" (c4SqlFk false) "u.uid"
     (c4SqlTarget "INT" true) rfl rfl (by decide),
   claim_c4_amended.2.1 true false "TINYINT" (by decide),
   claim_c4_amended.2.2 false "BIGINT" (by decide)⟩
